import Mathlib

/-!
# VSK shell plugin: window classification, placement and reserved areas

A shallow embedding of `src/VSKShell.hpp` and `src/VSKShell.cpp`.

* Window and display handles (`wayfire_view`, `wf::output_t *`) are compared by
  identity only, so they are natural numbers; a null handle is `none`.
* C++ `int` is `Int`; `a / 2` on `int` truncates toward zero and is `Int.tdiv a 2`.
  Signed overflow is undefined in C++ and is outside the model.
* `QString` is a list of characters, `std::string` is `String`.
* The file-level maps `backgrounds` and `panels`, and the members of each
  per-display plugin instance (`mLastFocusView`, `mRunnerView`, `mNotifyView`, the
  configuration stores), are fields of one `State`, indexed by display.
* The compositor is part of the state as far as the plugin reads or writes it:
  the attributes of each window, the usable area of each display, the reserved
  areas registered with each display, and a log of `bring_to_front` calls.
-/

namespace VSKShell

/-! ## Path resolution (`cleanPath`) -/

/-- A `QString`, as its sequence of characters. -/
abbrev QString := List Char

/-- The parts of `QString::split( sep, Qt::KeepEmptyParts )` for a one-character
separator: the maximal runs between separators, empty runs kept. -/
def split (sep : Char) : QString → List QString
  | [] => [[]]
  | c :: cs =>
    if c = sep then [] :: split sep cs
    else
      match split sep cs with
      | [] => [[c]]
      | p :: ps => (c :: p) :: ps

/-- The string of `QStringList::join( sep )`. -/
def join (sep : Char) : List QString → QString
  | [] => []
  | [p] => p
  | p :: q :: ps => p ++ sep :: join sep (q :: ps)

/-- The test `QString::startsWith( "$" )`. -/
def startsWithDollar : QString → Bool
  | c :: _ => c == '$'
  | [] => false

/-- The process environment: the value of each variable that is set. -/
abbrev Environment := QString → Option QString

/-- The call `qEnvironmentVariable( varName, defaultValue )`. -/
def qEnvironmentVariable (env : Environment) (varName defaultValue : QString) : QString :=
  (env varName).getD defaultValue

/-- The function `cleanPath` of `VSKShell.cpp`. `homePath` is `QDir::homePath()` and
`currentPath` is `QDir::currentPath()`. The variable name handed to
`qEnvironmentVariable` is `parts.at( 0 )` as it stands. -/
def cleanPath (env : Environment) (homePath currentPath : QString) (path : QString) : QString :=
  match split '/' path with
  | [] => path
  | p0 :: rest =>
    if startsWithDollar p0 then
      join '/' (qEnvironmentVariable env p0 [] :: rest)
    else if p0 = ['~'] then
      join '/' (homePath :: rest)
    else if p0 ≠ [] then
      join '/' (currentPath :: p0 :: rest)
    else
      join '/' (p0 :: rest)

/-- The first `/`-separated segment of a path. -/
def firstSegment (path : QString) : QString :=
  (split '/' path).headD []

/-- The segments of a path after the first one. -/
def otherSegments (path : QString) : List QString :=
  (split '/' path).tail

/-- An environment in which only `HOME` is set, to `/home/u`. -/
def envHome : Environment :=
  fun name => if name = "HOME".toList then some "/home/u".toList else none

/-! ## Windows, displays and the plugin state -/

/-- Identity of a window (`wayfire_view`). -/
abbrev View := Nat

/-- Identity of a display (`wf::output_t *`). -/
abbrev Output := Nat

/-- The rectangle `wf::geometry_t`. -/
structure geometry_t where
  x : Int
  y : Int
  width : Int
  height : Int
deriving DecidableEq, Repr

/-- The stacking tiers the plugin uses, and the tier of an ordinary window. -/
inductive layer_t where
  | LAYER_BACKGROUND
  | LAYER_WORKSPACE
  | LAYER_TOP
  | LAYER_UNMANAGED
deriving DecidableEq, Repr

/-- The role tag of a window. -/
inductive view_role_t where
  | VIEW_ROLE_TOPLEVEL
  | VIEW_ROLE_UNMANAGED
  | VIEW_ROLE_DESKTOP_ENVIRONMENT
deriving DecidableEq, Repr

/-- The edge of a reserved area. -/
inductive anchored_edge where
  | ANCHORED_EDGE_TOP
  | ANCHORED_EDGE_BOTTOM
  | ANCHORED_EDGE_LEFT
  | ANCHORED_EDGE_RIGHT
deriving DecidableEq, Repr

/-- What the plugin reads and writes of a window. `data` lists the keys of the
custom data attached to the window (`has_data`). -/
structure ViewData where
  app_id : String
  title : String
  geometry : geometry_t
  output : Option Output
  layer : layer_t
  sticky : Bool
  role : view_role_t
  decorated : Bool
  data : List String
deriving DecidableEq, Repr

/-- The record `wf::workspace_manager::anchored_area`. `reflowed` is the closure
stored by `configureView`: the window and display it captured, to which it applies
`configureView` again. -/
structure anchored_area where
  edge : anchored_edge
  reserved_size : Int
  real_size : Int
  reflowed : Option (View × Output)
deriving DecidableEq, Repr

/-- The record `BackgroundView`. -/
structure BackgroundView where
  view : Option View
deriving DecidableEq, Repr

/-- The record `PanelView`. -/
structure PanelView where
  viewTop : Option View
  viewLeft : Option View
  anchorTop : Option anchored_area
  anchorLeft : Option anchored_area
deriving DecidableEq, Repr

/-- Which of the two reserved-area objects of a display a pointer refers to:
`anchorTop.get()` or `anchorLeft.get()`. -/
inductive AnchorSlot where
  | top
  | left
deriving DecidableEq, Repr

/-- The object behind a registered pointer. -/
def PanelView.anchor (p : PanelView) : AnchorSlot → Option anchored_area
  | .top => p.anchorTop
  | .left => p.anchorLeft

/-- The window slot that belongs to a reserved-area object. -/
def PanelView.slot (p : PanelView) : AnchorSlot → Option View
  | .top => p.viewTop
  | .left => p.viewLeft

/-- The state: the compositor as seen by the plugin, the configuration stores, the
two file-level maps and the members of every plugin instance. -/
structure State where
  /-- The displays in enumeration order (`output_layout->get_outputs()`). -/
  outputs : List Output
  /-- The active display (`get_active_output()`). -/
  active_output : Option Output
  /-- The attributes of every window. -/
  views : View → ViewData
  /-- The full rectangle of a display (`get_relative_geometry()`). -/
  relative_geometry : Output → geometry_t
  /-- The usable area of a display (`workspace->get_workarea()`). -/
  workarea : Output → geometry_t
  /-- The reserved areas registered with a display, in registration order. -/
  reserved_areas : Output → List AnchorSlot
  /-- The `bring_to_front` calls made so far, latest first. -/
  raised : List (Output × View)
  /-- The value of `dialog/show_on_top` in the runner store of an instance. -/
  show_on_top : Output → Bool
  /-- The value of `placement` in the notification store of an instance, if present. -/
  placement : Output → Option String
  /-- The file-level map `backgrounds`. -/
  backgrounds : Output → BackgroundView
  /-- The file-level map `panels`. -/
  panels : Output → PanelView
  /-- The member `mLastFocusView` of the instance of a display. -/
  mLastFocusView : Output → Option View
  /-- The member `mRunnerView` of the instance of a display. -/
  mRunnerView : Output → Option View
  /-- The member `mNotifyView` of the instance of a display. -/
  mNotifyView : Output → Option View
  /-- The window the connection `onNotifyViewResized` of an instance is attached to. -/
  notifyResized : Output → Option View

/-- The map `f` with the entry at `k` replaced by `v`. -/
def upd {α : Type} (f : Nat → α) (k : Nat) (v : α) : Nat → α :=
  fun i => if i = k then v else f i

/-- The state with the attributes of one window changed by `f`. -/
def State.modifyView (s : State) (view : View) (f : ViewData → ViewData) : State :=
  { s with views := upd s.views view (f (s.views view)) }

/-- The state with the `panels` entry of one display changed by `f`. -/
def State.modifyPanel (s : State) (output : Output) (f : PanelView → PanelView) : State :=
  { s with panels := upd s.panels output (f (s.panels output)) }

/-- The call `view->set_decoration( nullptr )`. -/
def set_decoration_null (view : View) (s : State) : State :=
  s.modifyView view (fun d => { d with decorated := false })

/-- The call `move_view_to_output( view, output, false )`: the window belongs to the
display afterwards; its geometry is not reconfigured. -/
def move_view_to_output (view : View) (output : Output) (s : State) : State :=
  s.modifyView view (fun d => { d with output := some output })

/-- The call `view->set_geometry( g )`. -/
def set_geometry (view : View) (g : geometry_t) (s : State) : State :=
  s.modifyView view (fun d => { d with geometry := g })

/-- The call `workspace->add_view( view, layer )`. -/
def add_view (view : View) (layer : layer_t) (s : State) : State :=
  s.modifyView view (fun d => { d with layer := layer })

/-- The assignment `view->sticky = true`. -/
def set_sticky (view : View) (s : State) : State :=
  s.modifyView view (fun d => { d with sticky := true })

/-- The call `view->set_role( role )`. -/
def set_role (view : View) (role : view_role_t) (s : State) : State :=
  s.modifyView view (fun d => { d with role := role })

/-- The call `workspace->add_reserved_area( ptr )`. -/
def add_reserved_area (output : Output) (a : AnchorSlot) (s : State) : State :=
  { s with reserved_areas := upd s.reserved_areas output (s.reserved_areas output ++ [a]) }

/-- The call `workspace->remove_reserved_area( ptr )`. -/
def remove_reserved_area (output : Output) (a : AnchorSlot) (s : State) : State :=
  { s with reserved_areas := upd s.reserved_areas output ((s.reserved_areas output).erase a) }

/-- The call `workspace->bring_to_front( view )`. -/
def bring_to_front (output : Output) (view : View) (s : State) : State :=
  { s with raised := (output, view) :: s.raised }

/-- The geometry `configureView` computes for a window in a usable area. -/
def panelGeometry (workarea window : geometry_t) : geometry_t :=
  if window.width > window.height then
    let window := if window.width > workarea.width then { window with width := workarea.width } else window
    let window := { window with x := workarea.x + Int.tdiv (workarea.width - window.width) 2 }
    { window with y := workarea.y }
  else
    let window := if window.height > workarea.height then { window with height := workarea.height } else window
    let window := { window with x := workarea.x }
    { window with y := workarea.y + Int.tdiv (workarea.height - window.height) 2 }

/-- The value-initialised `anchored_area` of `std::make_unique`, with the closure
`configureView` stores in it. -/
def newAnchor (view : View) (output : Output) : anchored_area :=
  { edge := .ANCHORED_EDGE_TOP, reserved_size := 0, real_size := 0, reflowed := some (view, output) }

/-- The function `configureView` of `VSKShell.cpp`. -/
def configureView (view : View) (output : Output) (s : State) : State :=
  let workarea := s.workarea output
  let window := (s.views view).geometry
  let geom := panelGeometry workarea window
  if window.width > window.height then
    let s := s.modifyPanel output (fun p => { p with viewTop := some view })
    let s :=
      if (s.panels output).anchorTop = none then
        add_reserved_area output .top
          (s.modifyPanel output (fun p => { p with anchorTop := some (newAnchor view output) }))
      else s
    let s := s.modifyPanel output (fun p =>
      { p with anchorTop := p.anchorTop.map (fun a =>
          { a with edge := .ANCHORED_EDGE_TOP, reserved_size := geom.height, real_size := geom.height }) })
    set_geometry view geom s
  else
    let s := s.modifyPanel output (fun p => { p with viewLeft := some view })
    let s :=
      if (s.panels output).anchorLeft = none then
        add_reserved_area output .left
          (s.modifyPanel output (fun p => { p with anchorLeft := some (newAnchor view output) }))
      else s
    let s := s.modifyPanel output (fun p =>
      { p with anchorLeft := p.anchorLeft.map (fun a =>
          { a with edge := .ANCHORED_EDGE_LEFT, reserved_size := geom.width, real_size := geom.width }) })
    set_geometry view geom s

/-- The usable area that remains beside a reserved strip. -/
def shrink (workarea : geometry_t) (edge : anchored_edge) (size : Int) : geometry_t :=
  match edge with
  | .ANCHORED_EDGE_TOP => { workarea with y := workarea.y + size, height := workarea.height - size }
  | .ANCHORED_EDGE_BOTTOM => { workarea with height := workarea.height - size }
  | .ANCHORED_EDGE_LEFT => { workarea with x := workarea.x + size, width := workarea.width - size }
  | .ANCHORED_EDGE_RIGHT => { workarea with width := workarea.width - size }

/-- Modelled from the spec: one round of the compositor's reflow for one registered
reserved area (the compositor is not under `src/`). The spec has the compositor
invoke the recompute callback of the area, and has the usable area be the display
less the reserved strips; so the callback runs, then the strip it left is taken off
the usable area. -/
def reflowOne (output : Output) (s : State) (a : AnchorSlot) : State :=
  let s :=
    match ((s.panels output).anchor a).bind (fun area => area.reflowed) with
    | some (view, o) => configureView view o s
    | none => s
  match (s.panels output).anchor a with
  | some area =>
    { s with workarea := upd s.workarea output (shrink (s.workarea output) area.edge area.reserved_size) }
  | none => s

/-- Modelled from the spec: the compositor's `workspace->reflow_reserved_areas()`
(not under `src/`): the usable area restarts from the full display and every
reserved area registered when the reflow starts is recomputed in registration
order. -/
def reflow_reserved_areas (output : Output) (s : State) : State :=
  let anchors := s.reserved_areas output
  let s := { s with workarea := upd s.workarea output (s.relative_geometry output) }
  anchors.foldl (reflowOne output) s

/-- The method `setViewAsBackground`. -/
def setViewAsBackground (view : View) (output : Output) (s : State) : State :=
  let s := { s with backgrounds := upd s.backgrounds output { view := some view } }
  let s := set_decoration_null view s
  let s := move_view_to_output view output s
  let s := set_geometry view (s.relative_geometry output) s
  let s := add_view view .LAYER_BACKGROUND s
  let s := set_sticky view s
  set_role view .VIEW_ROLE_DESKTOP_ENVIRONMENT s

/-- The method `setViewAsPanel`. -/
def setViewAsPanel (view : View) (output : Output) (s : State) : State :=
  let s := set_decoration_null view s
  let s := move_view_to_output view output s
  let s := add_view view .LAYER_TOP s
  let s := set_sticky view s
  let s := set_role view .VIEW_ROLE_DESKTOP_ENVIRONMENT s
  let s := configureView view output s
  reflow_reserved_areas output s

/-- The usable area `view->get_output()->workspace->get_workarea()`; the window has
just been moved to `output`, which is what `get_output()` returns. -/
def workareaOfView (view : View) (output : Output) (s : State) : geometry_t :=
  s.workarea ((s.views view).output.getD output)

/-- The geometry `showRunner` computes. -/
def runnerGeometry (show_on_top : Bool) (workarea window : geometry_t) : geometry_t :=
  let window := { window with x := workarea.x + Int.tdiv workarea.width 2 - Int.tdiv window.width 2 }
  if show_on_top then
    { window with y := workarea.y + 10 }
  else
    { window with y := workarea.y + Int.tdiv workarea.height 2 - Int.tdiv window.height 2 }

/-- The method `showRunner` of the instance of display `inst`. -/
def showRunner (inst : Output) (view : View) (output : Output) (s : State) : State :=
  let s := { s with mRunnerView := upd s.mRunnerView inst (some view) }
  let s := set_decoration_null view s
  let s := move_view_to_output view output s
  let s := set_geometry view (s.views view).geometry s
  let s := add_view view .LAYER_UNMANAGED s
  let s := set_sticky view s
  let s := set_role view .VIEW_ROLE_DESKTOP_ENVIRONMENT s
  let workarea := workareaOfView view output s
  let window := (s.views view).geometry
  set_geometry view (runnerGeometry (s.show_on_top inst) workarea window) s

/-- The geometry `showNotification` computes; `notifyPos` is the value read by
`notifyCfg->value( "placement", "top-right" ).toString()`. -/
def notificationGeometry (notifyPos : String) (workarea window : geometry_t) : geometry_t :=
  if notifyPos = "top-center" then
    { window with
      x := workarea.x + Int.tdiv (workarea.width - window.width) 2
      y := workarea.y + 10 }
  else if notifyPos = "top-left" then
    { window with
      x := workarea.x + 10
      y := workarea.y + 10 }
  else if notifyPos = "center-left" then
    { window with
      x := workarea.x + 10
      y := workarea.y + Int.tdiv (workarea.height - window.height) 2 }
  else if notifyPos = "bottom-left" then
    { window with
      x := workarea.x + 10
      y := workarea.y + workarea.height - window.height - 10 }
  else if notifyPos = "bottom-center" then
    { window with
      x := workarea.x + Int.tdiv (workarea.width - window.width) 2
      y := workarea.y + workarea.height - window.height - 10 }
  else if notifyPos = "bottom-right" then
    { window with
      x := workarea.x + workarea.width - window.width - 10
      y := workarea.y + workarea.height - window.height - 10 }
  else if notifyPos = "center-right" then
    { window with
      x := workarea.x + workarea.width - window.width - 10
      y := workarea.y + Int.tdiv (workarea.height - window.height) 2 }
  else
    { window with
      x := workarea.x + workarea.width - window.width - 10
      y := workarea.y + 10 }

/-- The method `showNotification` of the instance of display `inst`. -/
def showNotification (inst : Output) (view : View) (output : Output) (s : State) : State :=
  let s := { s with notifyResized := upd s.notifyResized inst none }
  let s := { s with mNotifyView := upd s.mNotifyView inst (some view) }
  let s := set_decoration_null view s
  let s := move_view_to_output view output s
  let s := add_view view .LAYER_TOP s
  let s := set_sticky view s
  let s := set_role view .VIEW_ROLE_DESKTOP_ENVIRONMENT s
  let workarea := workareaOfView view output s
  let window := (s.views view).geometry
  let notifyPos := (s.placement inst).getD "top-right"
  let s := set_geometry view (notificationGeometry notifyPos workarea window) s
  { s with notifyResized := upd s.notifyResized inst (some view) }

/-! ## Signal handlers -/

/-- The payload of the window-added signal. -/
structure view_added_signal where
  view : View
deriving DecidableEq, Repr

/-- The payload of the window-mapped signal. -/
structure view_mapped_signal where
  view : View
  is_positioned : Bool
deriving DecidableEq, Repr

/-- The payload of the window-vanished signal; the handle may be null. -/
structure view_disappeared_signal where
  view : Option View
deriving DecidableEq, Repr

/-- The payload of the pre-focus signal; the handle may be null. -/
structure pre_focus_view_signal where
  view : Option View
  can_focus : Bool
deriving DecidableEq, Repr

/-- The handler `onViewAddedSignal` of the instance of display `inst`. -/
def onViewAddedSignal (inst : Output) (ev : view_added_signal) (s : State) : State :=
  if (s.views ev.view).output ≠ some inst then s
  else if (s.views ev.view).app_id = "lxqt-notificationd" then
    if (s.views ev.view).title = "lxqt-notificationd" then
      set_role ev.view .VIEW_ROLE_DESKTOP_ENVIRONMENT s
    else s
  else s

/-- The handler `onViewMappedSignal` of the instance of display `inst`: the state
and the payload it leaves. -/
def onViewMappedSignal (inst : Output) (ev : view_mapped_signal) (s : State) :
    State × view_mapped_signal :=
  if (s.views ev.view).output ≠ some inst then (s, ev)
  else
    let view := ev.view
    let appId := (s.views view).app_id
    if appId = "vasak-desktop" then
      let title := (s.views view).title
      if title = "Vasak Desktop" then
        match s.outputs.find? (fun op => (s.backgrounds op).view.isNone) with
        | some op => (setViewAsBackground view op s, { ev with is_positioned := true })
        | none => (s, ev)
      else (s, ev)
    else if appId = "navale" then
      let title := (s.views view).title
      if title = "Navale" then
        match s.outputs.find?
            (fun op => !((s.panels op).viewTop.isSome && (s.panels op).viewLeft.isSome)) with
        | some op => (setViewAsPanel view op s, { ev with is_positioned := true })
        | none => (s, ev)
      else (s, ev)
    else if appId = "hydriam" then
      let title := (s.views view).title
      if title = "Hydriam" then
        match s.active_output with
        | some output => (showRunner inst view output s, { ev with is_positioned := true })
        | none => (s, ev)
      else (s, ev)
    else if appId = "lxqt-notificationd" then
      let title := (s.views view).title
      if title = "lxqt-notificationd" then
        match s.active_output with
        | some output => (showNotification inst view output s, { ev with is_positioned := true })
        | none => (s, ev)
      else (s, ev)
    else (s, ev)

/-- The first statement of `onViewVanishedSignal`: the background slot. -/
def vanishedBackground (inst : Output) (ev : view_disappeared_signal) (s : State) : State :=
  if ev.view.isSome ∧ (s.backgrounds inst).view = ev.view then
    { s with backgrounds := upd s.backgrounds inst { view := none } }
  else s

/-- The second statement of `onViewVanishedSignal`: the top panel slot and its
reserved area. -/
def vanishedTop (inst : Output) (ev : view_disappeared_signal) (s : State) : State :=
  if ev.view.isSome ∧ (s.panels inst).viewTop = ev.view then
    let s := s.modifyPanel inst (fun p => { p with viewTop := none })
    if (s.panels inst).anchorTop.isSome then
      let s := remove_reserved_area inst .top s
      let s := s.modifyPanel inst (fun p => { p with anchorTop := none })
      reflow_reserved_areas inst s
    else s
  else s

/-- The third statement of `onViewVanishedSignal`: the left panel slot and its
reserved area. -/
def vanishedLeft (inst : Output) (ev : view_disappeared_signal) (s : State) : State :=
  if ev.view.isSome ∧ (s.panels inst).viewLeft = ev.view then
    let s := s.modifyPanel inst (fun p => { p with viewLeft := none })
    if (s.panels inst).anchorLeft.isSome then
      let s := remove_reserved_area inst .left s
      let s := s.modifyPanel inst (fun p => { p with anchorLeft := none })
      reflow_reserved_areas inst s
    else s
  else s

/-- The last three statements of `onViewVanishedSignal`: the members of the
instance. -/
def vanishedMembers (inst : Output) (ev : view_disappeared_signal) (s : State) : State :=
  let s :=
    if ev.view = s.mLastFocusView inst then
      { s with mLastFocusView := upd s.mLastFocusView inst none }
    else s
  let s :=
    if ev.view = s.mRunnerView inst then
      { s with mRunnerView := upd s.mRunnerView inst none }
    else s
  if ev.view = s.mNotifyView inst then
    { s with mNotifyView := upd s.mNotifyView inst none }
  else s

/-- The handler `onViewVanishedSignal` of the instance of display `inst`: its six
statements in order. -/
def onViewVanishedSignal (inst : Output) (ev : view_disappeared_signal) (s : State) : State :=
  vanishedMembers inst ev (vanishedLeft inst ev (vanishedTop inst ev (vanishedBackground inst ev s)))

/-- The test `view->has_data( key )`. -/
def has_data (s : State) (view : View) (key : String) : Bool :=
  decide (key ∈ (s.views view).data)

/-- The handler `onPreViewFocused` of the instance of display `inst`: the state and
the payload it leaves. -/
def onPreViewFocused (inst : Output) (ev : pre_focus_view_signal) (s : State) :
    State × pre_focus_view_signal :=
  match ev.view with
  | none => (s, ev)
  | some view =>
    let appId := (s.views view).app_id
    let title := (s.views view).title
    if appId = "lxqt-notificationd" ∧ title = "lxqt-notificationd" then
      let ev := { ev with can_focus := false }
      match s.mLastFocusView inst with
      | none => (s, ev)
      | some last =>
        if has_data s last "wm-actions-showdesktop" then (s, ev)
        else if has_data s last "dbusqt-showdesktop" then (s, ev)
        else if has_data s last "wf-workspaces-showdesktop" then (s, ev)
        else (bring_to_front inst last s, ev)
    else
      ({ s with mLastFocusView := upd s.mLastFocusView inst (some view) }, ev)

/-- An event the compositor delivers: a signal to the instance of a display, or a
reflow of the reserved areas of a display. -/
inductive Event where
  | added (inst : Output) (ev : view_added_signal)
  | mapped (inst : Output) (ev : view_mapped_signal)
  | vanished (inst : Output) (ev : view_disappeared_signal)
  | preFocus (inst : Output) (ev : pre_focus_view_signal)
  | reflow (output : Output)
deriving DecidableEq, Repr

/-- The state after one event. -/
def step (s : State) : Event → State
  | .added inst ev => onViewAddedSignal inst ev s
  | .mapped inst ev => (onViewMappedSignal inst ev s).1
  | .vanished inst ev => onViewVanishedSignal inst ev s
  | .preFocus inst ev => (onPreViewFocused inst ev s).1
  | .reflow output => reflow_reserved_areas output s

/-- The state after a sequence of events. -/
def run (s : State) (events : List Event) : State :=
  events.foldl step s

/-- The empty state: no slot filled, no reserved area, nothing raised; the displays,
the windows and the configuration are whatever the compositor has. -/
def State.empty (outputs : List Output) (active_output : Option Output)
    (views : View → ViewData) (relative_geometry : Output → geometry_t)
    (show_on_top : Output → Bool) (placement : Output → Option String) : State :=
  { outputs := outputs
    active_output := active_output
    views := views
    relative_geometry := relative_geometry
    workarea := relative_geometry
    reserved_areas := fun _ => []
    raised := []
    show_on_top := show_on_top
    placement := placement
    backgrounds := fun _ => { view := none }
    panels := fun _ => { viewTop := none, viewLeft := none, anchorTop := none, anchorLeft := none }
    mLastFocusView := fun _ => none
    mRunnerView := fun _ => none
    mNotifyView := fun _ => none
    notifyResized := fun _ => none }

/-! ## Concrete windows and states used to evaluate the handlers -/

/-- A window with the given identity strings and size, not yet on any layer of the
shell, placed on display `output`. -/
def mkView (app_id title : String) (width height : Int) (output : Output) : ViewData :=
  { app_id := app_id
    title := title
    geometry := { x := 0, y := 0, width := width, height := height }
    output := some output
    layer := .LAYER_WORKSPACE
    sticky := false
    role := .VIEW_ROLE_TOPLEVEL
    decorated := true
    data := [] }

/-- Four windows on display 0: a notification popup (1), a runner (2), a wide panel
that is taller than the display (3), and an ordinary window (any other handle). -/
def placementViews : View → ViewData := fun v =>
  if v = 1 then mkView "lxqt-notificationd" "lxqt-notificationd" 300 80 0
  else if v = 2 then mkView "hydriam" "Hydriam" 600 400 0
  else if v = 3 then mkView "navale" "Navale" 500 300 0
  else mkView "xterm" "xterm" 640 480 0

/-- One display of 400 by 200 units in the empty state, `dialog/show_on_top` true
and `placement` set to `bottom-left`. -/
def placementState : State :=
  State.empty [0] (some 0) placementViews (fun _ => { x := 0, y := 0, width := 400, height := 200 })
    (fun _ => true) (fun _ => some "bottom-left")

/-- Windows of the shell on display 0: three desktop backgrounds (10, 11, 12), two
wide panels (20, 21), a tall panel (22), a window with the panel's application
identity and a title in another letter case (30), an ordinary window that carries
the show-desktop marker of the dbusqt plugin (31), a notification popup (40), and
ordinary windows (any other handle). -/
def shellViews : View → ViewData := fun v =>
  if v = 10 ∨ v = 11 ∨ v = 12 then mkView "vasak-desktop" "Vasak Desktop" 800 600 0
  else if v = 20 then mkView "navale" "Navale" 300 30 0
  else if v = 21 then mkView "navale" "Navale" 200 20 0
  else if v = 22 then mkView "navale" "Navale" 30 100 0
  else if v = 30 then mkView "navale" "navale" 300 30 0
  else if v = 31 then { mkView "xterm" "xterm" 640 480 0 with data := ["dbusqt-showdesktop"] }
  else if v = 40 then mkView "lxqt-notificationd" "lxqt-notificationd" 300 80 0
  else mkView "xterm" "xterm" 640 480 0

/-- The empty state with the windows of `shellViews` and the given displays, each
of 400 by 200 units. -/
def shellState (outputs : List Output) : State :=
  State.empty outputs (some 0) shellViews (fun _ => { x := 0, y := 0, width := 400, height := 200 })
    (fun _ => false) (fun _ => none)

/-- The map events of a list, delivered one after another: the final state and the
payload each handler left. -/
def mapAll : List (Output × view_mapped_signal) → State → State × List view_mapped_signal
  | [], s => (s, [])
  | (inst, ev) :: rest, s =>
    let r := onViewMappedSignal inst ev s
    let r' := mapAll rest r.1
    (r'.1, r.2 :: r'.2)

/-- The edge a reserved-area object of a display is meant for. -/
def AnchorSlot.edge : AnchorSlot → anchored_edge
  | .top => .ANCHORED_EDGE_TOP
  | .left => .ANCHORED_EDGE_LEFT

/-- Consistency of the panel record of display `d` with the reserved areas
registered with that display: no area is registered twice; an area is registered
exactly when its object exists, and its object exists exactly when its window slot
is filled; every object carries its own edge and a closure that captured `d`. -/
def PanelOK (d : Output) (p : PanelView) (registered : List AnchorSlot) : Prop :=
  registered.Nodup ∧
  ∀ a : AnchorSlot,
    (a ∈ registered ↔ (p.slot a).isSome) ∧
    ((p.anchor a).isSome ↔ (p.slot a).isSome) ∧
    ∀ area, p.anchor a = some area → area.edge = a.edge ∧ ∃ v, area.reflowed = some (v, d)

/-- Consistency of every display. -/
def Inv (s : State) : Prop :=
  ∀ d, PanelOK d (s.panels d) (s.reserved_areas d)

/-- One display; the wide panel 20 has been mapped and holds the top slot. -/
def onePanelState : State :=
  (onViewMappedSignal 0 { view := 20, is_positioned := false } (shellState [0])).1

/-- The test of the panel loop of `onViewMappedSignal`: the display is passed over
when its top slot and its left slot both hold a window. -/
def panelsFull (s : State) (d : Output) : Bool :=
  (s.panels d).viewTop.isSome && (s.panels d).viewLeft.isSome

/-! ## Configuration reload and further concrete states -/

/-- The callback `init` sets on `panel_config` for the instance of display `inst`:
after the store is replaced, the window in the top slot of the display, if any, is
made a panel again. -/
def panel_config_callback (inst : Output) (s : State) : State :=
  match (s.panels inst).viewTop with
  | some view => setViewAsPanel view inst s
  | none => s

/-- Windows on display 0: a panel of 600 by 450 units (50), wider than tall and
taller than the display is wide; a notification popup of 301 by 81 units (60); and
ordinary windows (any other handle). -/
def oddViews : View → ViewData := fun v =>
  if v = 50 then mkView "navale" "Navale" 600 450 0
  else if v = 60 then mkView "lxqt-notificationd" "lxqt-notificationd" 301 81 0
  else mkView "xterm" "xterm" 640 480 0

/-- One display of 400 by 200 units in the empty state, with the windows of
`oddViews` and `placement` set to the given value. -/
def oddState (placement : String) : State :=
  State.empty [0] (some 0) oddViews (fun _ => { x := 0, y := 0, width := 400, height := 200 })
    (fun _ => false) (fun _ => some placement)

/-- The state in which `onViewMappedSignal` calls `configureView` for panel 50: the
window has been given the panel's layer, role and sticky flag. -/
def beforeFirstPlacement : State :=
  set_role 50 .VIEW_ROLE_DESKTOP_ENVIRONMENT (set_sticky 50 (add_view 50 .LAYER_TOP
    (move_view_to_output 50 0 (set_decoration_null 50 (oddState "top-right")))))

/-- The state after the map event of panel 50 from the empty state. -/
def afterMap50 : State :=
  run (oddState "top-right") [Event.mapped 0 { view := 50, is_positioned := false }]

/-- The state after the map event of panel 50 followed by its vanish event. -/
def afterVanish50 : State :=
  run (oddState "top-right")
    [Event.mapped 0 { view := 50, is_positioned := false }, Event.vanished 0 { view := some 50 }]

end VSKShell

/-! ## Theorems -/

namespace VSKShell

/-! ### Splitting and joining paths -/

theorem split_ne_nil (sep : Char) (l : QString) : split sep l ≠ [] := by
  cases l with
  | nil => simp [split]
  | cons c cs =>
    unfold split
    split
    · simp
    · split <;> simp

theorem join_cons_cons (sep c : Char) (p : QString) (ps : List QString) :
    join sep ((c :: p) :: ps) = c :: join sep (p :: ps) := by
  cases ps with
  | nil => simp [join]
  | cons q qs => simp [join]

/-- Joining the parts of a split gives the string back. -/
theorem join_split (sep : Char) (l : QString) : join sep (split sep l) = l := by
  induction l with
  | nil => simp [split, join]
  | cons c cs ih =>
    unfold split
    by_cases hc : c = sep
    · rw [if_pos hc]
      obtain ⟨q, qs, hq⟩ := List.exists_cons_of_ne_nil (split_ne_nil sep cs)
      rw [hq] at ih ⊢
      simp [join, ih, hc]
    · rw [if_neg hc]
      obtain ⟨q, qs, hq⟩ := List.exists_cons_of_ne_nil (split_ne_nil sep cs)
      rw [hq] at ih ⊢
      simp only [join_cons_cons, ih]

/-- The first part of a split is empty exactly for the empty string and for a string
that starts with the separator. -/
theorem split_head_eq_nil_iff (sep : Char) (l : QString) :
    (split sep l).headD [] = [] ↔ l = [] ∨ l.head? = some sep := by
  cases l with
  | nil => simp [split]
  | cons c cs =>
    unfold split
    by_cases hc : c = sep
    · simp [hc]
    · rw [if_neg hc]
      split <;> simp [hc]

theorem split_eq_first_cons_other (path : QString) :
    split '/' path = firstSegment path :: otherSegments path := by
  obtain ⟨q, qs, hq⟩ := List.exists_cons_of_ne_nil (split_ne_nil '/' path)
  simp [firstSegment, otherSegments, hq]

/-! ### Reading the state after the window operations -/

@[simp] theorem upd_same {α : Type} (f : Nat → α) (k : Nat) (v : α) : upd f k v k = v := by
  simp [upd]

theorem upd_other {α : Type} (f : Nat → α) (k : Nat) (v : α) (i : Nat) (h : i ≠ k) :
    upd f k v i = f i := by
  simp [upd, h]

/-- The geometry `showNotification` sets is `notificationGeometry` of the configured
placement, the usable area of the target display and the window's own geometry. -/
theorem showNotification_geometry (inst : Output) (view : View) (output : Output) (s : State) :
    ((showNotification inst view output s).views view).geometry =
      notificationGeometry ((s.placement inst).getD "top-right") (s.workarea output)
        (s.views view).geometry := by
  simp [showNotification, workareaOfView, set_geometry, set_role, set_sticky, add_view,
    move_view_to_output, set_decoration_null, State.modifyView]

/-- The geometry `showRunner` sets is `runnerGeometry` of the configured flag, the
usable area of the target display and the window's own geometry. -/
theorem showRunner_geometry (inst : Output) (view : View) (output : Output) (s : State) :
    ((showRunner inst view output s).views view).geometry =
      runnerGeometry (s.show_on_top inst) (s.workarea output) (s.views view).geometry := by
  simp [showRunner, workareaOfView, set_geometry, set_role, set_sticky, add_view,
    move_view_to_output, set_decoration_null, State.modifyView]

/-- The geometry `configureView` sets is `panelGeometry` of the usable area of the
display and the window's own geometry. -/
theorem configureView_geometry (view : View) (output : Output) (s : State) :
    ((configureView view output s).views view).geometry =
      panelGeometry (s.workarea output) (s.views view).geometry := by
  by_cases h : (s.views view).geometry.width > (s.views view).geometry.height <;>
    by_cases hT : (s.panels output).anchorTop = none <;>
    by_cases hL : (s.panels output).anchorLeft = none <;>
    simp [configureView, h, hT, hL, set_geometry, State.modifyView, State.modifyPanel,
      add_reserved_area]

/-! ### C1: notification placement -/

/-- C1. Notification placement (`showNotification`): in every state, for every
usable area and window size, the geometry set keeps the window's width and height,
and every edge named by the configured `placement` is exactly 10 units inside the
usable area of the target display: `top-*` gives `y = workarea.y + 10`, `bottom-*`
gives `y + height + 10 = workarea.y + workarea.height`, `*-left` gives
`x = workarea.x + 10`, `*-right` gives `x + width + 10 = workarea.x + workarea.width`.
Any other string, or an absent value, gives the geometry that `top-right` gives;
matching is case-sensitive, so `Top-Left` is such a string. -/
theorem showNotification_placement (inst : Output) (view : View) (output : Output) (s : State) :
    ((showNotification inst view output s).views view).geometry.width
        = (s.views view).geometry.width ∧
    ((showNotification inst view output s).views view).geometry.height
        = (s.views view).geometry.height ∧
    (s.placement inst ∈ [some "top-left", some "top-center", some "top-right"] →
      ((showNotification inst view output s).views view).geometry.y = (s.workarea output).y + 10) ∧
    (s.placement inst ∈ [some "bottom-left", some "bottom-center", some "bottom-right"] →
      ((showNotification inst view output s).views view).geometry.y
          + ((showNotification inst view output s).views view).geometry.height + 10
        = (s.workarea output).y + (s.workarea output).height) ∧
    (s.placement inst ∈ [some "top-left", some "center-left", some "bottom-left"] →
      ((showNotification inst view output s).views view).geometry.x = (s.workarea output).x + 10) ∧
    (s.placement inst ∈ [some "top-right", some "center-right", some "bottom-right"] →
      ((showNotification inst view output s).views view).geometry.x
          + ((showNotification inst view output s).views view).geometry.width + 10
        = (s.workarea output).x + (s.workarea output).width) ∧
    (s.placement inst ∉ [some "top-left", some "top-center", some "top-right",
        some "center-left", some "center-right",
        some "bottom-left", some "bottom-center", some "bottom-right"] →
      ((showNotification inst view output s).views view).geometry
        = ((showNotification inst view output
            { s with placement := upd s.placement inst (some "top-right") }).views view).geometry) ∧
    ((showNotification inst view output
        { s with placement := upd s.placement inst (some "Top-Left") }).views view).geometry
      = ((showNotification inst view output
            { s with placement := upd s.placement inst (some "top-right") }).views view).geometry := by
  simp only [showNotification_geometry, upd_same, Option.getD_some]
  refine ⟨?_, ?_, ?_, ?_, ?_, ?_, ?_, ?_⟩
  · unfold notificationGeometry; repeat' split
    all_goals rfl
  · unfold notificationGeometry; repeat' split
    all_goals rfl
  · intro h
    simp only [List.mem_cons, List.mem_singleton, List.not_mem_nil, or_false] at h
    rcases h with h | h | h <;> simp [h, notificationGeometry]
  · intro h
    simp only [List.mem_cons, List.mem_singleton, List.not_mem_nil, or_false] at h
    rcases h with h | h | h <;> simp [h, notificationGeometry] <;> omega
  · intro h
    simp only [List.mem_cons, List.mem_singleton, List.not_mem_nil, or_false] at h
    rcases h with h | h | h <;> simp [h, notificationGeometry]
  · intro h
    simp only [List.mem_cons, List.mem_singleton, List.not_mem_nil, or_false] at h
    rcases h with h | h | h <;> simp [h, notificationGeometry] <;> omega
  · intro h
    simp only [List.mem_cons, List.mem_singleton, List.not_mem_nil, or_false, not_or] at h
    obtain ⟨h1, h2, h3, h4, h5, h6, h7, h8⟩ := h
    cases hp : s.placement inst with
    | none => rfl
    | some p =>
      rw [hp] at h1 h2 h3 h4 h5 h6 h7 h8
      simp only [Option.some.injEq] at h1 h2 h3 h4 h5 h6 h7 h8
      simp [notificationGeometry, h1, h2, h4, h5, h6, h7, h8]
  · simp [notificationGeometry]

/-- C1 at a concrete state: a 300 by 80 popup on a 400 by 200 display with
`placement` set to `bottom-left` is put at x = 10 and y = 110. -/
theorem showNotification_placement_witness :
    ((showNotification 0 1 0 placementState).views 1).geometry
      = { x := 10, y := 110, width := 300, height := 80 } ∧
    ((showNotification 0 1 0 placementState).views 1).geometry.y
        + ((showNotification 0 1 0 placementState).views 1).geometry.height + 10
      = (placementState.workarea 0).y + (placementState.workarea 0).height ∧
    ((showNotification 0 1 0 placementState).views 1).geometry.x
      = (placementState.workarea 0).x + 10 :=
  ⟨by decide,
   (showNotification_placement 0 1 0 placementState).2.2.2.1 (by decide),
   (showNotification_placement 0 1 0 placementState).2.2.2.2.1 (by decide)⟩

/-! ### C2: runner placement -/

/-- C2. Runner placement (`showRunner`): in every state, for every usable area and
window size, the geometry set keeps the window's width and height and is centred
horizontally on the usable area of the target display (`x` is
`workarea.x + workarea.width/2 - width/2`, so the window's centre column is the
area's centre column); `y = workarea.y + 10` when `dialog/show_on_top` is true,
whatever the height, and `y = workarea.y + workarea.height/2 - height/2` when it is
false (the window's centre row is then the area's centre row). -/
theorem showRunner_placement (inst : Output) (view : View) (output : Output) (s : State) :
    ((showRunner inst view output s).views view).geometry.width
        = (s.views view).geometry.width ∧
    ((showRunner inst view output s).views view).geometry.height
        = (s.views view).geometry.height ∧
    ((showRunner inst view output s).views view).geometry.x
        = (s.workarea output).x + Int.tdiv (s.workarea output).width 2
            - Int.tdiv (s.views view).geometry.width 2 ∧
    ((showRunner inst view output s).views view).geometry.x
          + Int.tdiv ((showRunner inst view output s).views view).geometry.width 2
        = (s.workarea output).x + Int.tdiv (s.workarea output).width 2 ∧
    (s.show_on_top inst = true →
      ((showRunner inst view output s).views view).geometry.y = (s.workarea output).y + 10) ∧
    (s.show_on_top inst = false →
      ((showRunner inst view output s).views view).geometry.y
          = (s.workarea output).y + Int.tdiv (s.workarea output).height 2
              - Int.tdiv (s.views view).geometry.height 2 ∧
      ((showRunner inst view output s).views view).geometry.y
          + Int.tdiv ((showRunner inst view output s).views view).geometry.height 2
        = (s.workarea output).y + Int.tdiv (s.workarea output).height 2) := by
  simp only [showRunner_geometry]
  refine ⟨?_, ?_, ?_, ?_, ?_, ?_⟩
  · unfold runnerGeometry; split <;> rfl
  · unfold runnerGeometry; split <;> rfl
  · unfold runnerGeometry; split <;> rfl
  · unfold runnerGeometry; split <;> simp
  · intro h; simp [runnerGeometry, h]
  · intro h; simp [runnerGeometry, h]

/-- C2 at a concrete state: with `dialog/show_on_top` true a 600 by 400 runner on a
400 by 200 display is put at y = 10, and at x = 200 - 300 = -100. -/
theorem showRunner_placement_witness :
    placementState.show_on_top 0 = true ∧
    ((showRunner 0 2 0 placementState).views 2).geometry
      = { x := -100, y := 10, width := 600, height := 400 } ∧
    ((showRunner 0 2 0 placementState).views 2).geometry.y = (placementState.workarea 0).y + 10 :=
  ⟨by decide, by decide, (showRunner_placement 0 2 0 placementState).2.2.2.2.1 (by decide)⟩

/-! ### C4: panel clamping -/

/-- C4, counterexample. A 500 by 300 panel (wider than tall, so a top panel) on a
400 by 200 usable area gets width 400 and keeps height 300: its thickness is not
clamped and exceeds the height of the usable area. -/
theorem configureView_thickness_counterexample :
    (placementState.workarea 0) = { x := 0, y := 0, width := 400, height := 200 } ∧
    (placementState.views 3).geometry = { x := 0, y := 0, width := 500, height := 300 } ∧
    ((configureView 3 0 placementState).views 3).geometry
      = { x := 0, y := 0, width := 400, height := 300 } ∧
    ¬ (((configureView 3 0 placementState).views 3).geometry.height
        ≤ (placementState.workarea 0).height) := by
  decide

/-- C4, amended. Panel clamping (`configureView`): in every state, for every usable
area and requested panel size, the extent of the panel along its anchored edge is
clamped to the usable area and its thickness is kept as requested. For a top panel
(width > height) the final width is the smaller of the requested width and
`workarea.width`, the height is unchanged, and the reserved size is that height; for
a left panel the final height is the smaller of the requested height and
`workarea.height`, the width is unchanged, and the reserved size is that width. -/
theorem configureView_clamp (view : View) (output : Output) (s : State) :
    if (s.views view).geometry.width > (s.views view).geometry.height then
      ((configureView view output s).views view).geometry.width
          = min (s.views view).geometry.width (s.workarea output).width ∧
      ((configureView view output s).views view).geometry.width ≤ (s.workarea output).width ∧
      ((configureView view output s).views view).geometry.height
          = (s.views view).geometry.height ∧
      (((configureView view output s).panels output).anchorTop.map (fun a => a.reserved_size))
          = some (s.views view).geometry.height
    else
      ((configureView view output s).views view).geometry.height
          = min (s.views view).geometry.height (s.workarea output).height ∧
      ((configureView view output s).views view).geometry.height ≤ (s.workarea output).height ∧
      ((configureView view output s).views view).geometry.width
          = (s.views view).geometry.width ∧
      (((configureView view output s).panels output).anchorLeft.map (fun a => a.reserved_size))
          = some (s.views view).geometry.width := by
  by_cases h : (s.views view).geometry.width > (s.views view).geometry.height
  · rw [if_pos h]
    simp only [configureView_geometry]
    refine ⟨?_, ?_, ?_, ?_⟩
    · simp only [panelGeometry, if_pos h]
      split <;> rename_i hc <;> simp only [min_def] <;> split <;> (try dsimp only) <;> omega
    · simp only [panelGeometry, if_pos h]
      split <;> (try dsimp only) <;> omega
    · simp only [panelGeometry, if_pos h]
      split <;> rfl
    · by_cases hT : (s.panels output).anchorTop = none
      · simp [configureView, h, hT, set_geometry, State.modifyView, State.modifyPanel,
          add_reserved_area, panelGeometry, newAnchor]
        split <;> rfl
      · obtain ⟨a, ha⟩ := Option.ne_none_iff_exists'.mp hT
        simp [configureView, h, ha, set_geometry, State.modifyView, State.modifyPanel,
          add_reserved_area, panelGeometry]
        split <;> rfl
  · rw [if_neg h]
    simp only [configureView_geometry]
    refine ⟨?_, ?_, ?_, ?_⟩
    · simp only [panelGeometry, if_neg h]
      split <;> rename_i hc <;> simp only [min_def] <;> split <;> (try dsimp only) <;> omega
    · simp only [panelGeometry, if_neg h]
      split <;> (try dsimp only) <;> omega
    · simp only [panelGeometry, if_neg h]
      split <;> rfl
    · by_cases hL : (s.panels output).anchorLeft = none
      · simp [configureView, h, hL, set_geometry, State.modifyView, State.modifyPanel,
          add_reserved_area, panelGeometry, newAnchor]
        split <;> rfl
      · obtain ⟨a, ha⟩ := Option.ne_none_iff_exists'.mp hL
        simp [configureView, h, ha, set_geometry, State.modifyView, State.modifyPanel,
          add_reserved_area, panelGeometry]
        split <;> rfl

/-! ### C9 and C10: path resolution -/

/-- C9, the code at the failing input. With `HOME=/home/u` and nothing else set,
`cleanPath( "$HOME/x" )` is `/x`, not `/home/u/x`: the name looked up in the
environment is the whole first segment `$HOME`, dollar sign included, which is not
set, so the segment becomes the empty default. -/
theorem cleanPath_dollar_HOME (homePath currentPath : QString) :
    envHome "HOME".toList = some "/home/u".toList ∧
    envHome "$HOME".toList = none ∧
    cleanPath envHome homePath currentPath "$HOME/x".toList = "/x".toList ∧
    cleanPath envHome homePath currentPath "$HOME/x".toList ≠ "/home/u/x".toList := by
  refine ⟨by decide, by decide, ?_, ?_⟩
  · simp [cleanPath, split, startsWithDollar, qEnvironmentVariable, envHome, join]
  · simp [cleanPath, split, startsWithDollar, qEnvironmentVariable, envHome, join]

/-- C10. Path resolution, other cases: for every path whose first `/`-separated
segment does not start with `$`, `cleanPath` returns (i) the path with its first
segment replaced by the home directory when that segment is exactly `~`; (ii) the
path unchanged when it is empty or starts with `/`; (iii) otherwise the current
working directory, a `/`, and the unchanged path. The path is its segments joined
by `/`, which is what "replaced" refers to. -/
theorem cleanPath_other (env : Environment) (homePath currentPath path : QString)
    (h : startsWithDollar (firstSegment path) = false) :
    join '/' (firstSegment path :: otherSegments path) = path ∧
    cleanPath env homePath currentPath path =
      if firstSegment path = ['~'] then join '/' (homePath :: otherSegments path)
      else if path = [] ∨ path.head? = some '/' then path
      else currentPath ++ '/' :: path := by
  have hs := split_eq_first_cons_other path
  have hj := join_split '/' path
  rw [hs] at hj
  refine ⟨hj, ?_⟩
  have hnil := split_head_eq_nil_iff '/' path
  unfold cleanPath
  rw [hs]
  simp only [h, Bool.false_eq_true, if_false]
  by_cases h1 : firstSegment path = ['~']
  · simp [h1]
  · rw [if_neg h1, if_neg h1]
    by_cases h2 : firstSegment path = []
    · have h3 : path = [] ∨ path.head? = some '/' := hnil.mp (by simpa [firstSegment] using h2)
      rw [if_pos h3]
      simp only [h2, ne_eq, not_true_eq_false, if_false]
      rw [h2] at hj
      exact hj
    · have h3 : ¬ (path = [] ∨ path.head? = some '/') := by
        intro h3
        exact h2 (by simpa [firstSegment] using hnil.mpr h3)
      rw [if_neg h3]
      simp only [ne_eq, h2, not_false_eq_true, if_true]
      simp only [join, hj]

/-- C10 at concrete paths: `~/y` gives the home directory and `/y`; `/abs/w` and the
empty path are unchanged; `rel/z` with working directory `/a/b` gives `/a/b/rel/z`;
`~user/f` is taken as a relative path. -/
theorem cleanPath_other_witness :
    startsWithDollar (firstSegment "rel/z".toList) = false ∧
    cleanPath envHome "/home/u".toList "/a/b".toList "rel/z".toList = "/a/b/rel/z".toList ∧
    cleanPath envHome "/home/u".toList "/a/b".toList "~/y".toList = "/home/u/y".toList ∧
    cleanPath envHome "/home/u".toList "/a/b".toList "/abs/w".toList = "/abs/w".toList ∧
    cleanPath envHome "/home/u".toList "/a/b".toList [] = [] ∧
    cleanPath envHome "/home/u".toList "/a/b".toList "~user/f".toList = "/a/b/~user/f".toList := by
  refine ⟨by decide, ?_, ?_, ?_, ?_, ?_⟩
  · rw [(cleanPath_other envHome "/home/u".toList "/a/b".toList "rel/z".toList (by decide)).2]
    decide
  · rw [(cleanPath_other envHome "/home/u".toList "/a/b".toList "~/y".toList (by decide)).2]
    decide
  · rw [(cleanPath_other envHome "/home/u".toList "/a/b".toList "/abs/w".toList (by decide)).2]
    decide
  · rw [(cleanPath_other envHome "/home/u".toList "/a/b".toList [] (by decide)).2]
    decide
  · rw [(cleanPath_other envHome "/home/u".toList "/a/b".toList "~user/f".toList (by decide)).2]
    decide

/-! ### C3: focus arbitration -/

/-- C3. Focus arbitration (`onPreViewFocused`): in every state, a pre-focus request
on a window whose app id and title are both `lxqt-notificationd` is denied
(`can_focus = false`), leaves the recorded last-focused window (and every other part
of the state but the log of raised windows) as it was, and raises the last-focused
window if and only if one is recorded and it carries none of the markers
`wm-actions-showdesktop`, `dbusqt-showdesktop`, `wf-workspaces-showdesktop`; with
any one of them present, or with nothing recorded, nothing is raised. -/
theorem onPreViewFocused_notification (inst : Output) (view : View) (can_focus : Bool) (s : State)
    (happ : (s.views view).app_id = "lxqt-notificationd")
    (htitle : (s.views view).title = "lxqt-notificationd") :
    (onPreViewFocused inst { view := some view, can_focus := can_focus } s).2
        = { view := some view, can_focus := false } ∧
    (onPreViewFocused inst { view := some view, can_focus := can_focus } s).1.mLastFocusView
        = s.mLastFocusView ∧
    (onPreViewFocused inst { view := some view, can_focus := can_focus } s).1
        = { s with raised :=
              match s.mLastFocusView inst with
              | none => s.raised
              | some last =>
                if "wm-actions-showdesktop" ∈ (s.views last).data
                    ∨ "dbusqt-showdesktop" ∈ (s.views last).data
                    ∨ "wf-workspaces-showdesktop" ∈ (s.views last).data
                then s.raised
                else (inst, last) :: s.raised } := by
  cases hl : s.mLastFocusView inst with
  | none => simp [onPreViewFocused, happ, htitle, hl]
  | some last =>
    by_cases h1 : "wm-actions-showdesktop" ∈ (s.views last).data
    · simp [onPreViewFocused, happ, htitle, hl, has_data, h1]
    · by_cases h2 : "dbusqt-showdesktop" ∈ (s.views last).data
      · simp [onPreViewFocused, happ, htitle, hl, has_data, h1, h2]
      · by_cases h3 : "wf-workspaces-showdesktop" ∈ (s.views last).data
        · simp [onPreViewFocused, happ, htitle, hl, has_data, h1, h2, h3]
        · simp [onPreViewFocused, happ, htitle, hl, has_data, h1, h2, h3, bring_to_front]

/-- C3 at concrete states: after an ordinary window (5) was focused on display 0, a
pre-focus request on the notification popup (40) is denied and raises window 5;
after the window with the dbusqt marker (31) was focused, it is denied and raises
nothing. -/
theorem onPreViewFocused_notification_witness :
    (onPreViewFocused 0 { view := some 40, can_focus := true }
        (onPreViewFocused 0 { view := some 5, can_focus := true } (shellState [0])).1).2.can_focus
      = false ∧
    (onPreViewFocused 0 { view := some 40, can_focus := true }
        (onPreViewFocused 0 { view := some 5, can_focus := true } (shellState [0])).1).1.raised
      = [(0, 5)] ∧
    (onPreViewFocused 0 { view := some 40, can_focus := true }
        (onPreViewFocused 0 { view := some 31, can_focus := true } (shellState [0])).1).1.raised
      = [] := by
  have h5 := onPreViewFocused_notification 0 40 true
    (onPreViewFocused 0 { view := some 5, can_focus := true } (shellState [0])).1
    (by decide) (by decide)
  have h31 := onPreViewFocused_notification 0 40 true
    (onPreViewFocused 0 { view := some 31, can_focus := true } (shellState [0])).1
    (by decide) (by decide)
  refine ⟨?_, ?_, ?_⟩
  · rw [h5.1]
  · rw [h5.2.2]; decide
  · rw [h31.2.2]; decide

/-! ### C8: unclassified windows -/

/-- C8. Unclassified windows are untouched: in every state, for every mapped window
whose (app id, title) pair is not exactly one of (`vasak-desktop`, `Vasak Desktop`),
(`navale`, `Navale`), (`hydriam`, `Hydriam`),
(`lxqt-notificationd`, `lxqt-notificationd`), the map handler returns the state as
it was (so no geometry, role, layer, sticky flag, slot or reserved area changes) and
the payload as it was (so `is_positioned` is not set). -/
theorem onViewMappedSignal_unclassified (inst : Output) (ev : view_mapped_signal) (s : State)
    (h : ((s.views ev.view).app_id, (s.views ev.view).title) ∉
      [("vasak-desktop", "Vasak Desktop"), ("navale", "Navale"), ("hydriam", "Hydriam"),
       ("lxqt-notificationd", "lxqt-notificationd")]) :
    onViewMappedSignal inst ev s = (s, ev) := by
  simp only [List.mem_cons, List.mem_singleton, List.not_mem_nil, or_false, Prod.mk.injEq,
    not_or, not_and] at h
  obtain ⟨h1, h2, h3, h4⟩ := h
  unfold onViewMappedSignal
  split
  · rfl
  · dsimp only
    split
    · rename_i ha; rw [if_neg (h1 ha)]
    · split
      · rename_i ha; rw [if_neg (h2 ha)]
      · split
        · rename_i ha; rw [if_neg (h3 ha)]
        · split
          · rename_i ha; rw [if_neg (h4 ha)]
          · rfl

/-- C8 at concrete windows: an ordinary window (5) and a window with the panel's app
id whose title differs in letter case (30) are left alone. -/
theorem onViewMappedSignal_unclassified_witness :
    onViewMappedSignal 0 { view := 5, is_positioned := false } (shellState [0])
      = (shellState [0], { view := 5, is_positioned := false }) ∧
    onViewMappedSignal 0 { view := 30, is_positioned := false } (shellState [0])
      = (shellState [0], { view := 30, is_positioned := false }) :=
  ⟨onViewMappedSignal_unclassified 0 { view := 5, is_positioned := false } (shellState [0])
      (by decide),
   onViewMappedSignal_unclassified 0 { view := 30, is_positioned := false } (shellState [0])
      (by decide)⟩

/-! ### The panel record and the reserved areas stay consistent -/

theorem configureView_panels_other (view : View) (output d : Output) (s : State)
    (hd : d ≠ output) : (configureView view output s).panels d = s.panels d := by
  by_cases h : (s.views view).geometry.width > (s.views view).geometry.height <;>
    by_cases hT : (s.panels output).anchorTop = none <;>
    by_cases hL : (s.panels output).anchorLeft = none <;>
    simp [configureView, h, hT, hL, set_geometry, State.modifyView, State.modifyPanel,
      add_reserved_area, upd, hd]

theorem configureView_reserved_other (view : View) (output d : Output) (s : State)
    (hd : d ≠ output) : (configureView view output s).reserved_areas d = s.reserved_areas d := by
  by_cases h : (s.views view).geometry.width > (s.views view).geometry.height <;>
    by_cases hT : (s.panels output).anchorTop = none <;>
    by_cases hL : (s.panels output).anchorLeft = none <;>
    simp [configureView, h, hT, hL, set_geometry, State.modifyView, State.modifyPanel,
      add_reserved_area, upd, hd]

/-- The panel record and the registered areas of the display after `configureView`
took the top branch. -/
theorem configureView_top (view : View) (output : Output) (s : State)
    (h : (s.views view).geometry.width > (s.views view).geometry.height) :
    (configureView view output s).panels output =
      { viewTop := some view
        viewLeft := (s.panels output).viewLeft
        anchorTop := some
          { edge := .ANCHORED_EDGE_TOP
            reserved_size := (s.views view).geometry.height
            real_size := (s.views view).geometry.height
            reflowed :=
              match (s.panels output).anchorTop with
              | none => some (view, output)
              | some a => a.reflowed }
        anchorLeft := (s.panels output).anchorLeft } ∧
    (configureView view output s).reserved_areas output =
      if (s.panels output).anchorTop = none then s.reserved_areas output ++ [.top]
      else s.reserved_areas output := by
  have hg : (panelGeometry (s.workarea output) (s.views view).geometry).height
      = (s.views view).geometry.height := by
    simp only [panelGeometry, if_pos h]; split <;> rfl
  cases hT : (s.panels output).anchorTop with
  | none =>
    simp [configureView, h, hT, hg, set_geometry, State.modifyView, State.modifyPanel,
      add_reserved_area, newAnchor]
  | some a =>
    simp [configureView, h, hT, hg, set_geometry, State.modifyView, State.modifyPanel,
      add_reserved_area]

/-- The panel record and the registered areas of the display after `configureView`
took the left branch. -/
theorem configureView_left (view : View) (output : Output) (s : State)
    (h : ¬ (s.views view).geometry.width > (s.views view).geometry.height) :
    (configureView view output s).panels output =
      { viewTop := (s.panels output).viewTop
        viewLeft := some view
        anchorTop := (s.panels output).anchorTop
        anchorLeft := some
          { edge := .ANCHORED_EDGE_LEFT
            reserved_size := (s.views view).geometry.width
            real_size := (s.views view).geometry.width
            reflowed :=
              match (s.panels output).anchorLeft with
              | none => some (view, output)
              | some a => a.reflowed } } ∧
    (configureView view output s).reserved_areas output =
      if (s.panels output).anchorLeft = none then s.reserved_areas output ++ [.left]
      else s.reserved_areas output := by
  have hg : (panelGeometry (s.workarea output) (s.views view).geometry).width
      = (s.views view).geometry.width := by
    simp only [panelGeometry, if_neg h]; split <;> rfl
  cases hL : (s.panels output).anchorLeft with
  | none =>
    simp [configureView, h, hL, hg, set_geometry, State.modifyView, State.modifyPanel,
      add_reserved_area, newAnchor]
  | some a =>
    simp [configureView, h, hL, hg, set_geometry, State.modifyView, State.modifyPanel,
      add_reserved_area]

theorem configureView_inv (view : View) (output : Output) (s : State) (h : Inv s) :
    Inv (configureView view output s) := by
  intro d
  by_cases hd : d = output
  · subst hd
    obtain ⟨hnd, hall⟩ := h d
    have htop := hall .top
    have hleft := hall .left
    simp only [PanelView.slot, PanelView.anchor, AnchorSlot.edge] at htop hleft
    by_cases hw : (s.views view).geometry.width > (s.views view).geometry.height
    · obtain ⟨hp, hr⟩ := configureView_top view d s hw
      rw [PanelOK, hp, hr]
      cases hT : (s.panels d).anchorTop with
      | none =>
        have hnotin : AnchorSlot.top ∉ s.reserved_areas d := by
          intro hin
          have h1 := htop.2.1.mpr (htop.1.mp hin)
          simp [hT] at h1
        refine ⟨?_, ?_⟩
        · simp only [if_true]
          exact List.Nodup.append hnd (List.nodup_singleton _) (by simpa using hnotin)
        · intro a
          cases a with
          | top =>
            simp [PanelView.slot, PanelView.anchor, AnchorSlot.edge]
          | left =>
            simp only [PanelView.slot, PanelView.anchor, AnchorSlot.edge, if_true,
              List.mem_append, List.mem_singleton, reduceCtorEq, or_false]
            exact hleft
      | some a0 =>
        have ha0 := htop.2.2 a0 hT
        refine ⟨?_, ?_⟩
        · simpa using hnd
        · intro a
          cases a with
          | top =>
            have hin : AnchorSlot.top ∈ s.reserved_areas d :=
              htop.1.mpr (htop.2.1.mp (by simp [hT]))
            simp [PanelView.slot, PanelView.anchor, AnchorSlot.edge, hin, ha0.2]
          | left =>
            simp only [PanelView.slot, PanelView.anchor, AnchorSlot.edge, reduceCtorEq,
              if_false]
            exact hleft
    · obtain ⟨hp, hr⟩ := configureView_left view d s hw
      rw [PanelOK, hp, hr]
      cases hL : (s.panels d).anchorLeft with
      | none =>
        have hnotin : AnchorSlot.left ∉ s.reserved_areas d := by
          intro hin
          have h1 := hleft.2.1.mpr (hleft.1.mp hin)
          simp [hL] at h1
        refine ⟨?_, ?_⟩
        · simp only [if_true]
          exact List.Nodup.append hnd (List.nodup_singleton _) (by simpa using hnotin)
        · intro a
          cases a with
          | left =>
            simp [PanelView.slot, PanelView.anchor, AnchorSlot.edge]
          | top =>
            simp only [PanelView.slot, PanelView.anchor, AnchorSlot.edge, if_true,
              List.mem_append, List.mem_singleton, reduceCtorEq, or_false]
            exact htop
      | some a0 =>
        have ha0 := hleft.2.2 a0 hL
        refine ⟨?_, ?_⟩
        · simpa using hnd
        · intro a
          cases a with
          | left =>
            have hin : AnchorSlot.left ∈ s.reserved_areas d :=
              hleft.1.mpr (hleft.2.1.mp (by simp [hL]))
            simp [PanelView.slot, PanelView.anchor, AnchorSlot.edge, hin, ha0.2]
          | top =>
            simp only [PanelView.slot, PanelView.anchor, AnchorSlot.edge, reduceCtorEq,
              if_false]
            exact htop
  · rw [configureView_panels_other view output d s hd,
      configureView_reserved_other view output d s hd]
    exact h d

theorem Inv_of_eq {s t : State} (hp : t.panels = s.panels)
    (hr : t.reserved_areas = s.reserved_areas) (h : Inv s) : Inv t := by
  intro d
  rw [hp, hr]
  exact h d

theorem reflowOne_inv (output : Output) (s : State) (a : AnchorSlot) (h : Inv s) :
    Inv (reflowOne output s a) := by
  unfold reflowOne
  have h1 : Inv (match ((s.panels output).anchor a).bind (fun area => area.reflowed) with
      | some (view, o) => configureView view o s
      | none => s) := by
    split
    · exact configureView_inv _ _ _ h
    · exact h
  dsimp only
  split
  · exact Inv_of_eq rfl rfl h1
  · exact h1

theorem foldl_reflowOne_inv (output : Output) (l : List AnchorSlot) (s : State) (h : Inv s) :
    Inv (l.foldl (reflowOne output) s) := by
  induction l generalizing s with
  | nil => exact h
  | cons a l ih => exact ih _ (reflowOne_inv output s a h)

theorem reflow_reserved_areas_inv (output : Output) (s : State) (h : Inv s) :
    Inv (reflow_reserved_areas output s) := by
  unfold reflow_reserved_areas
  exact foldl_reflowOne_inv _ _ _ (Inv_of_eq rfl rfl h)

theorem setViewAsPanel_inv (view : View) (output : Output) (s : State) (h : Inv s) :
    Inv (setViewAsPanel view output s) := by
  unfold setViewAsPanel
  exact reflow_reserved_areas_inv _ _ (configureView_inv _ _ _ (Inv_of_eq rfl rfl h))

theorem setViewAsBackground_inv (view : View) (output : Output) (s : State) (h : Inv s) :
    Inv (setViewAsBackground view output s) :=
  Inv_of_eq rfl rfl h

theorem showRunner_inv (inst : Output) (view : View) (output : Output) (s : State) (h : Inv s) :
    Inv (showRunner inst view output s) :=
  Inv_of_eq rfl rfl h

theorem showNotification_inv (inst : Output) (view : View) (output : Output) (s : State)
    (h : Inv s) : Inv (showNotification inst view output s) :=
  Inv_of_eq rfl rfl h

theorem onViewAddedSignal_inv (inst : Output) (ev : view_added_signal) (s : State) (h : Inv s) :
    Inv (onViewAddedSignal inst ev s) := by
  unfold onViewAddedSignal
  split
  · exact h
  · split
    · split
      · exact Inv_of_eq rfl rfl h
      · exact h
    · exact h

theorem onViewMappedSignal_inv (inst : Output) (ev : view_mapped_signal) (s : State)
    (h : Inv s) : Inv (onViewMappedSignal inst ev s).1 := by
  unfold onViewMappedSignal
  split
  · exact h
  · dsimp only
    split
    · split
      · split
        · exact setViewAsBackground_inv _ _ _ h
        · exact h
      · exact h
    · split
      · split
        · split
          · exact setViewAsPanel_inv _ _ _ h
          · exact h
        · exact h
      · split
        · split
          · split
            · exact showRunner_inv _ _ _ _ h
            · exact h
          · exact h
        · split
          · split
            · split
              · exact showNotification_inv _ _ _ _ h
              · exact h
            · exact h
          · exact h

theorem onPreViewFocused_inv (inst : Output) (ev : pre_focus_view_signal) (s : State)
    (h : Inv s) : Inv (onPreViewFocused inst ev s).1 := by
  unfold onPreViewFocused
  split
  · exact h
  · dsimp only
    split
    · split
      · exact h
      · split
        · exact h
        · split
          · exact h
          · split
            · exact h
            · exact Inv_of_eq rfl rfl h
    · exact Inv_of_eq rfl rfl h

theorem clearTop_inv (inst : Output) (s : State) (h : Inv s) :
    Inv ((remove_reserved_area inst .top
      (s.modifyPanel inst (fun p => { p with viewTop := none }))).modifyPanel inst
        (fun p => { p with anchorTop := none })) := by
  intro d
  obtain ⟨hnd, hall⟩ := h d
  by_cases hd : d = inst
  · subst hd
    have hleft := hall .left
    simp only [PanelView.slot, PanelView.anchor, AnchorSlot.edge] at hleft
    simp only [State.modifyPanel, remove_reserved_area, upd_same, PanelOK]
    refine ⟨hnd.erase _, ?_⟩
    intro a
    cases a with
    | top => simp [PanelView.slot, PanelView.anchor, hnd.mem_erase_iff]
    | left =>
      simp only [PanelView.slot, PanelView.anchor, AnchorSlot.edge, hnd.mem_erase_iff, ne_eq,
        reduceCtorEq, not_false_eq_true, true_and]
      exact hleft
  · simp only [State.modifyPanel, remove_reserved_area, upd_other _ _ _ _ hd]
    exact ⟨hnd, hall⟩

theorem clearLeft_inv (inst : Output) (s : State) (h : Inv s) :
    Inv ((remove_reserved_area inst .left
      (s.modifyPanel inst (fun p => { p with viewLeft := none }))).modifyPanel inst
        (fun p => { p with anchorLeft := none })) := by
  intro d
  obtain ⟨hnd, hall⟩ := h d
  by_cases hd : d = inst
  · subst hd
    have htop := hall .top
    simp only [PanelView.slot, PanelView.anchor, AnchorSlot.edge] at htop
    simp only [State.modifyPanel, remove_reserved_area, upd_same, PanelOK]
    refine ⟨hnd.erase _, ?_⟩
    intro a
    cases a with
    | left => simp [PanelView.slot, PanelView.anchor, hnd.mem_erase_iff]
    | top =>
      simp only [PanelView.slot, PanelView.anchor, AnchorSlot.edge, hnd.mem_erase_iff, ne_eq,
        reduceCtorEq, not_false_eq_true, true_and]
      exact htop
  · simp only [State.modifyPanel, remove_reserved_area, upd_other _ _ _ _ hd]
    exact ⟨hnd, hall⟩

theorem vanishedTop_inv (inst : Output) (ev : view_disappeared_signal) (s : State) (h : Inv s) :
    Inv (vanishedTop inst ev s) := by
  unfold vanishedTop
  split
  · rename_i hc
    have hsome : ((s.panels inst).viewTop).isSome := by rw [hc.2]; exact hc.1
    have hanchor : ((s.panels inst).anchorTop).isSome := ((h inst).2 .top).2.1.mpr hsome
    have hcond : ((s.modifyPanel inst (fun p => { p with viewTop := none })).panels
        inst).anchorTop.isSome := by
      simpa [State.modifyPanel] using hanchor
    dsimp only
    rw [if_pos hcond]
    exact reflow_reserved_areas_inv _ _ (clearTop_inv inst s h)
  · exact h

theorem vanishedLeft_inv (inst : Output) (ev : view_disappeared_signal) (s : State) (h : Inv s) :
    Inv (vanishedLeft inst ev s) := by
  unfold vanishedLeft
  split
  · rename_i hc
    have hsome : ((s.panels inst).viewLeft).isSome := by rw [hc.2]; exact hc.1
    have hanchor : ((s.panels inst).anchorLeft).isSome := ((h inst).2 .left).2.1.mpr hsome
    have hcond : ((s.modifyPanel inst (fun p => { p with viewLeft := none })).panels
        inst).anchorLeft.isSome := by
      simpa [State.modifyPanel] using hanchor
    dsimp only
    rw [if_pos hcond]
    exact reflow_reserved_areas_inv _ _ (clearLeft_inv inst s h)
  · exact h

theorem vanishedBackground_inv (inst : Output) (ev : view_disappeared_signal) (s : State)
    (h : Inv s) : Inv (vanishedBackground inst ev s) := by
  unfold vanishedBackground
  split
  · exact Inv_of_eq rfl rfl h
  · exact h

theorem vanishedMembers_panels (inst : Output) (ev : view_disappeared_signal) (s : State) :
    (vanishedMembers inst ev s).panels = s.panels ∧
    (vanishedMembers inst ev s).reserved_areas = s.reserved_areas := by
  unfold vanishedMembers
  dsimp only
  split <;> split <;> split <;> exact ⟨rfl, rfl⟩

theorem onViewVanishedSignal_inv (inst : Output) (ev : view_disappeared_signal) (s : State)
    (h : Inv s) : Inv (onViewVanishedSignal inst ev s) := by
  unfold onViewVanishedSignal
  have h3 := vanishedLeft_inv inst ev _
    (vanishedTop_inv inst ev _ (vanishedBackground_inv inst ev s h))
  exact Inv_of_eq (vanishedMembers_panels inst ev _).1 (vanishedMembers_panels inst ev _).2 h3

theorem step_inv (s : State) (e : Event) (h : Inv s) : Inv (step s e) := by
  cases e with
  | added inst ev => exact onViewAddedSignal_inv inst ev s h
  | mapped inst ev => exact onViewMappedSignal_inv inst ev s h
  | vanished inst ev => exact onViewVanishedSignal_inv inst ev s h
  | preFocus inst ev => exact onPreViewFocused_inv inst ev s h
  | reflow output => exact reflow_reserved_areas_inv output s h

theorem run_inv (s : State) (events : List Event) (h : Inv s) : Inv (run s events) := by
  induction events generalizing s with
  | nil => exact h
  | cons e es ih => exact ih _ (step_inv s e h)

theorem empty_inv (outputs : List Output) (active_output : Option Output)
    (views : View → ViewData) (relative_geometry : Output → geometry_t)
    (show_on_top : Output → Bool) (placement : Output → Option String) :
    Inv (State.empty outputs active_output views relative_geometry show_on_top placement) := by
  intro d
  refine ⟨List.nodup_nil, ?_⟩
  intro a
  cases a <;> simp [State.empty, PanelView.slot, PanelView.anchor]

/-! ### C5: reserved areas exist exactly for filled panel slots -/

/-- C5. Reserved-area existence invariant: starting from the empty state, after
every finite sequence of events (window added, mapped, vanished, pre-focus, and
reflows driven by the compositor, with the recomputation of panels they trigger),
for every display and every edge in top, left: a reserved area is registered with
the display for that edge if and only if the panel slot of that display and edge
holds a window. The registered area is the object the plugin keeps for that edge
(it exists under the same condition and carries that edge), and it is registered
once. -/
theorem reserved_area_iff_panel_slot (outputs : List Output) (active_output : Option Output)
    (views : View → ViewData) (relative_geometry : Output → geometry_t)
    (show_on_top : Output → Bool) (placement : Output → Option String)
    (events : List Event) (d : Output) (a : AnchorSlot) :
    (a ∈ (run (State.empty outputs active_output views relative_geometry show_on_top placement)
          events).reserved_areas d
      ↔ (((run (State.empty outputs active_output views relative_geometry show_on_top placement)
          events).panels d).slot a).isSome) ∧
    ((((run (State.empty outputs active_output views relative_geometry show_on_top placement)
          events).panels d).anchor a).isSome
      ↔ (((run (State.empty outputs active_output views relative_geometry show_on_top placement)
          events).panels d).slot a).isSome) ∧
    (∀ area, ((run (State.empty outputs active_output views relative_geometry show_on_top
          placement) events).panels d).anchor a = some area → area.edge = a.edge) ∧
    ((run (State.empty outputs active_output views relative_geometry show_on_top placement)
          events).reserved_areas d).Nodup := by
  have h := run_inv _ events
    (empty_inv outputs active_output views relative_geometry show_on_top placement) d
  exact ⟨(h.2 a).1, (h.2 a).2.1, fun area ha => ((h.2 a).2.2 area ha).1, h.1⟩

/-! ### C6: panel slots -/

/-- C6, counterexample. One display whose top slot holds the wide panel 20 (left
slot empty). Mapping a second wide panel 21 is not left unclassified although the
top slot of every display is filled: the display is not passed over, `configureView`
writes window 21 into the filled top slot, `is_positioned` is set and window 21 gets
the panel's layer, role and geometry. (The reflow that follows runs the recompute
closure of the top area, which puts window 20 back in the slot.) -/
theorem panel_slot_counterexample :
    onePanelState.outputs = [0] ∧
    (onePanelState.panels 0).viewTop = some 20 ∧
    (onePanelState.views 21).geometry.width > (onePanelState.views 21).geometry.height ∧
    ((configureView 21 0 onePanelState).panels 0).viewTop = some 21 ∧
    (onViewMappedSignal 0 { view := 21, is_positioned := false } onePanelState).2.is_positioned
      = true ∧
    ((onViewMappedSignal 0 { view := 21, is_positioned := false } onePanelState).1.views 21).role
      = .VIEW_ROLE_DESKTOP_ENVIRONMENT ∧
    ((onViewMappedSignal 0 { view := 21, is_positioned := false } onePanelState).1.views 21).layer
      = .LAYER_TOP ∧
    ((onViewMappedSignal 0 { view := 21, is_positioned := false } onePanelState).1.views 21).geometry
      ≠ (onePanelState.views 21).geometry ∧
    ((onViewMappedSignal 0 { view := 21, is_positioned := false } onePanelState).1.panels 0).viewTop
      = some 20 ∧
    onViewMappedSignal 0 { view := 21, is_positioned := false } onePanelState
      ≠ (onePanelState, { view := 21, is_positioned := false }) := by
  refine ⟨by decide, by decide, by decide, by decide, by decide, by decide, by decide, by decide,
    by decide, ?_⟩
  intro h
  have h2 := congrArg (fun r => r.2.is_positioned) h
  revert h2
  decide


theorem reflowOne_other (output d : Output) (s : State) (a : AnchorSlot) (h : Inv s)
    (hd : d ≠ output) :
    (reflowOne output s a).panels d = s.panels d ∧
    (reflowOne output s a).reserved_areas d = s.reserved_areas d := by
  unfold reflowOne
  cases ha : (s.panels output).anchor a with
  | none =>
    simp [ha]
  | some area =>
    obtain ⟨_, v, hv⟩ := ((h output).2 a).2.2 area ha
    simp only [Option.bind, hv]
    split
    · exact ⟨configureView_panels_other v output d s hd,
        configureView_reserved_other v output d s hd⟩
    · exact ⟨configureView_panels_other v output d s hd,
        configureView_reserved_other v output d s hd⟩

theorem foldl_reflowOne_other (output d : Output) (l : List AnchorSlot) (s : State) (h : Inv s)
    (hd : d ≠ output) :
    (l.foldl (reflowOne output) s).panels d = s.panels d ∧
    (l.foldl (reflowOne output) s).reserved_areas d = s.reserved_areas d := by
  induction l generalizing s with
  | nil => exact ⟨rfl, rfl⟩
  | cons a l ih =>
    have h1 := reflowOne_other output d s a h hd
    have h2 := ih (reflowOne output s a) (reflowOne_inv output s a h)
    exact ⟨h2.1.trans h1.1, h2.2.trans h1.2⟩

theorem reflow_reserved_areas_other (output d : Output) (s : State) (h : Inv s)
    (hd : d ≠ output) :
    (reflow_reserved_areas output s).panels d = s.panels d ∧
    (reflow_reserved_areas output s).reserved_areas d = s.reserved_areas d := by
  unfold reflow_reserved_areas
  exact foldl_reflowOne_other output d _ _ (Inv_of_eq rfl rfl h) hd

theorem setViewAsPanel_other (view : View) (output d : Output) (s : State) (h : Inv s)
    (hd : d ≠ output) :
    (setViewAsPanel view output s).panels d = s.panels d ∧
    (setViewAsPanel view output s).reserved_areas d = s.reserved_areas d := by
  unfold setViewAsPanel
  have hI : Inv (set_role view .VIEW_ROLE_DESKTOP_ENVIRONMENT (set_sticky view
      (add_view view .LAYER_TOP (move_view_to_output view output
        (set_decoration_null view s))))) := Inv_of_eq rfl rfl h
  have h1 := reflow_reserved_areas_other output d _ (configureView_inv view output _ hI) hd
  have h2 := configureView_panels_other view output d
    (set_role view .VIEW_ROLE_DESKTOP_ENVIRONMENT (set_sticky view
      (add_view view .LAYER_TOP (move_view_to_output view output
        (set_decoration_null view s))))) hd
  have h3 := configureView_reserved_other view output d
    (set_role view .VIEW_ROLE_DESKTOP_ENVIRONMENT (set_sticky view
      (add_view view .LAYER_TOP (move_view_to_output view output
        (set_decoration_null view s))))) hd
  exact ⟨h1.1.trans h2, h1.2.trans h3⟩

/-- The panel branch of `onViewMappedSignal`, for a window with the panel signature
delivered to the instance of its display. -/
theorem onViewMappedSignal_panel_eq (inst : Output) (ev : view_mapped_signal) (s : State)
    (hout : (s.views ev.view).output = some inst)
    (happ : (s.views ev.view).app_id = "navale")
    (htitle : (s.views ev.view).title = "Navale") :
    onViewMappedSignal inst ev s =
      match s.outputs.find? (fun op => !panelsFull s op) with
      | some op => (setViewAsPanel ev.view op s, { ev with is_positioned := true })
      | none => (s, ev) := by
  simp [onViewMappedSignal, hout, happ, htitle, panelsFull]

/-- C6, amended. Panel placement is first-fit over the displays that have an empty
panel slot, and a display with both panel slots filled is never overwritten: in
every state reached from the empty state, when a window with the panel signature
(`navale`, `Navale`) is mapped, every display whose top slot and left slot both hold
a window keeps its panel record and its reserved areas; if every display is such,
the window is left unclassified (state and payload unchanged); otherwise the window
is made a panel (`setViewAsPanel`) of the first display in enumeration order with an
empty top or left slot, and `is_positioned` is set. -/
theorem panel_first_fit (outputs : List Output) (active_output : Option Output)
    (views : View → ViewData) (relative_geometry : Output → geometry_t)
    (show_on_top : Output → Bool) (placement : Output → Option String)
    (events : List Event) (s : State) (inst : Output) (ev : view_mapped_signal)
    (hs : s = run (State.empty outputs active_output views relative_geometry show_on_top
      placement) events)
    (hout : (s.views ev.view).output = some inst)
    (happ : (s.views ev.view).app_id = "navale")
    (htitle : (s.views ev.view).title = "Navale") :
    (∀ d, panelsFull s d = true →
      (onViewMappedSignal inst ev s).1.panels d = s.panels d ∧
      (onViewMappedSignal inst ev s).1.reserved_areas d = s.reserved_areas d) ∧
    ((∀ d ∈ s.outputs, panelsFull s d = true) → onViewMappedSignal inst ev s = (s, ev)) ∧
    (∀ pre op post, s.outputs = pre ++ op :: post → (∀ d ∈ pre, panelsFull s d = true) →
      panelsFull s op = false →
      onViewMappedSignal inst ev s
        = (setViewAsPanel ev.view op s, { ev with is_positioned := true })) := by
  have hI : Inv s := by
    rw [hs]
    exact run_inv _ events
      (empty_inv outputs active_output views relative_geometry show_on_top placement)
  rw [onViewMappedSignal_panel_eq inst ev s hout happ htitle]
  refine ⟨?_, ?_, ?_⟩
  · intro d hfull
    cases hf : s.outputs.find? (fun op => !panelsFull s op) with
    | none => exact ⟨rfl, rfl⟩
    | some op =>
      have hop := List.find?_some hf
      have hne : d ≠ op := by
        intro hdo
        rw [hdo] at hfull
        simp [hfull] at hop
      exact setViewAsPanel_other ev.view op d s hI hne
  · intro hall
    have hnone : s.outputs.find? (fun op => !panelsFull s op) = none := by
      rw [List.find?_eq_none]
      intro d hd
      simp [hall d hd]
    rw [hnone]
  · intro pre op post hsplit hpre hop
    have hfind : s.outputs.find? (fun op => !panelsFull s op) = some op := by
      rw [hsplit, List.find?_append]
      have hnone : pre.find? (fun op => !panelsFull s op) = none := by
        rw [List.find?_eq_none]
        intro d hd
        simp [hpre d hd]
      simp [hnone, hop]
    rw [hfind]

/-- C6 amended, at concrete states. One display with the top slot filled by panel
20: the tall panel 22 is made a panel of that display and lands in the left slot.
After that both slots are filled, and mapping the wide panel 21 changes nothing. -/
theorem panel_first_fit_witness :
    onViewMappedSignal 0 { view := 22, is_positioned := false } onePanelState
      = (setViewAsPanel 22 0 onePanelState, { view := 22, is_positioned := true }) ∧
    ((setViewAsPanel 22 0 onePanelState).panels 0).viewTop = some 20 ∧
    ((setViewAsPanel 22 0 onePanelState).panels 0).viewLeft = some 22 ∧
    onViewMappedSignal 0 { view := 21, is_positioned := false } (setViewAsPanel 22 0 onePanelState)
      = (setViewAsPanel 22 0 onePanelState, { view := 21, is_positioned := false }) := by
  refine ⟨?_, by decide, by decide, ?_⟩
  · exact (panel_first_fit [0] (some 0) shellViews
      (fun _ => { x := 0, y := 0, width := 400, height := 200 }) (fun _ => false) (fun _ => none)
      [Event.mapped 0 { view := 20, is_positioned := false }] onePanelState 0
      { view := 22, is_positioned := false } rfl (by decide) (by decide) (by decide)).2.2
      [] 0 [] (by decide) (by simp) (by decide)
  · exact (panel_first_fit [0] (some 0) shellViews
      (fun _ => { x := 0, y := 0, width := 400, height := 200 }) (fun _ => false) (fun _ => none)
      [Event.mapped 0 { view := 20, is_positioned := false },
       Event.mapped 0 { view := 22, is_positioned := false }]
      (setViewAsPanel 22 0 onePanelState) 0
      { view := 21, is_positioned := false } (by
        rw [show setViewAsPanel 22 0 onePanelState
          = (onViewMappedSignal 0 { view := 22, is_positioned := false } onePanelState).1 from by
            rw [onViewMappedSignal_panel_eq 0 _ onePanelState (by decide) (by decide) (by decide)]
            rfl]
        rfl) (by decide) (by decide) (by decide)).2.1
      (by decide)


/-! ### C7: background first-fit -/

/-- The background branch of `onViewMappedSignal`, for a window with the background
signature delivered to the instance of its display. -/
theorem onViewMappedSignal_background_eq (inst : Output) (ev : view_mapped_signal) (s : State)
    (hout : (s.views ev.view).output = some inst)
    (happ : (s.views ev.view).app_id = "vasak-desktop")
    (htitle : (s.views ev.view).title = "Vasak Desktop") :
    onViewMappedSignal inst ev s =
      match s.outputs.find? (fun op => (s.backgrounds op).view.isNone) with
      | some op => (setViewAsBackground ev.view op s, { ev with is_positioned := true })
      | none => (s, ev) := by
  simp [onViewMappedSignal, hout, happ, htitle]

theorem setViewAsBackground_views_other (view w : View) (output : Output) (s : State)
    (h : w ≠ view) : (setViewAsBackground view output s).views w = s.views w := by
  simp [setViewAsBackground, set_role, set_sticky, add_view, set_geometry, move_view_to_output,
    set_decoration_null, State.modifyView, upd, h]

theorem setViewAsBackground_views_self (view : View) (output : Output) (s : State) :
    (setViewAsBackground view output s).views view =
      { s.views view with
        decorated := false
        output := some output
        geometry := s.relative_geometry output
        layer := .LAYER_BACKGROUND
        sticky := true
        role := .VIEW_ROLE_DESKTOP_ENVIRONMENT } := by
  simp [setViewAsBackground, set_role, set_sticky, add_view, set_geometry, move_view_to_output,
    set_decoration_null, State.modifyView]

/-- First-fit, step by step: with the displays split in a filled part and an empty
part, as many windows as there are empty displays fill them in order. -/
theorem mapAll_background (evs : List (Output × view_mapped_signal)) :
    ∀ (s : State) (filled free : List Output),
      s.outputs = filled ++ free →
      (∀ o ∈ filled, (s.backgrounds o).view.isSome = true) →
      (∀ o ∈ free, (s.backgrounds o).view = none) →
      (filled ++ free).Nodup →
      evs.length = free.length →
      (∀ e ∈ evs, (s.views e.2.view).app_id = "vasak-desktop" ∧
        (s.views e.2.view).title = "Vasak Desktop" ∧ (s.views e.2.view).output = some e.1) →
      (evs.map (fun e => e.2.view)).Nodup →
      (mapAll evs s).1.outputs = s.outputs ∧
      free.map (fun o => ((mapAll evs s).1.backgrounds o).view)
        = evs.map (fun e => some e.2.view) ∧
      (∀ o, o ∉ free → (mapAll evs s).1.backgrounds o = s.backgrounds o) ∧
      (mapAll evs s).2 = evs.map (fun e => { e.2 with is_positioned := true }) ∧
      evs.map (fun e => ((mapAll evs s).1.views e.2.view).output) = free.map some ∧
      (∀ w, w ∉ evs.map (fun e => e.2.view) → (mapAll evs s).1.views w = s.views w) := by
  induction evs with
  | nil =>
    intro s filled free _ _ _ _ hlen _ _
    have hfree : free = [] := List.length_eq_zero.mp hlen.symm
    subst hfree
    simp [mapAll]
  | cons e rest ih =>
    intro s filled free hout hfilled hfree hnd hlen hsig hviews
    obtain ⟨inst, ev⟩ := e
    cases free with
    | nil => simp at hlen
    | cons o free' =>
      have hsig0 := hsig (inst, ev) (List.mem_cons_self _ _)
      simp only at hsig0
      have hfind : s.outputs.find? (fun op => (s.backgrounds op).view.isNone) = some o := by
        rw [hout, List.find?_append]
        have hnone : filled.find? (fun op => (s.backgrounds op).view.isNone) = none := by
          rw [List.find?_eq_none]
          intro d hd
          have := hfilled d hd
          simp [Option.isSome_iff_ne_none.mp this]
        simp [hnone, hfree o (List.mem_cons_self _ _)]
      have hstep : onViewMappedSignal inst ev s
          = (setViewAsBackground ev.view o s, { ev with is_positioned := true }) := by
        rw [onViewMappedSignal_background_eq inst ev s hsig0.2.2 hsig0.1 hsig0.2.1, hfind]
      have hnd' : ((filled ++ [o]) ++ free').Nodup := by simpa using hnd
      have ho_notin : o ∉ free' := by
        have h1 : (o :: free').Nodup := (List.nodup_append.mp hnd).2.1
        exact (List.nodup_cons.mp h1).1
      have hviews' := List.nodup_cons.mp (by simpa using hviews :
        (ev.view :: rest.map (fun e => e.2.view)).Nodup)
      have hrest := ih (setViewAsBackground ev.view o s) (filled ++ [o]) free'
        (by show s.outputs = _; rw [hout]; simp)
        (by
          intro d hd
          show ((upd s.backgrounds o { view := some ev.view }) d).view.isSome = true
          by_cases hdo : d = o
          · simp [upd, hdo]
          · rcases List.mem_append.mp hd with hd | hd
            · simpa [upd, hdo] using hfilled d hd
            · exact absurd (List.mem_singleton.mp hd) hdo)
        (by
          intro d hd
          show ((upd s.backgrounds o { view := some ev.view }) d).view = none
          have hdo : d ≠ o := fun h => ho_notin (h ▸ hd)
          simpa [upd, hdo] using hfree d (List.mem_cons_of_mem _ hd))
        hnd'
        (by simpa using hlen)
        (by
          intro e' he'
          have hne : e'.2.view ≠ ev.view := by
            intro h
            exact hviews'.1 (h ▸ List.mem_map_of_mem (fun e => e.2.view) he')
          rw [setViewAsBackground_views_other ev.view e'.2.view o s hne]
          exact hsig e' (List.mem_cons_of_mem _ he'))
        hviews'.2
      obtain ⟨r1, r2, r3, r4, r5, r6⟩ := hrest
      have hmap : mapAll ((inst, ev) :: rest) s
          = ((mapAll rest (setViewAsBackground ev.view o s)).1,
             { ev with is_positioned := true }
               :: (mapAll rest (setViewAsBackground ev.view o s)).2) := by
        simp only [mapAll, hstep]
      rw [hmap]
      refine ⟨r1, ?_, ?_, ?_, ?_, ?_⟩
      · simp only [List.map_cons, r2]
        rw [r3 o ho_notin]
        simp [setViewAsBackground, set_role, set_sticky, add_view, set_geometry,
          move_view_to_output, set_decoration_null, State.modifyView]
      · intro d hd
        have hd' : d ≠ o ∧ d ∉ free' := by simpa using hd
        rw [r3 d hd'.2]
        simp [setViewAsBackground, set_role, set_sticky, add_view, set_geometry,
          move_view_to_output, set_decoration_null, State.modifyView, upd, hd'.1]
      · simp only [List.map_cons, r4]
      · simp only [List.map_cons, r5]
        rw [r6 ev.view hviews'.1, setViewAsBackground_views_self]
      · intro w hw
        have hw' : w ≠ ev.view ∧ w ∉ rest.map (fun e => e.2.view) := by simpa using hw
        rw [r6 w hw'.2]
        exact setViewAsBackground_views_other ev.view w o s hw'.1


/-- C7. Background first-fit: for every N >= 0 displays with empty background slots
and no vanish in between, mapping N + 1 distinct windows with the background
signature (`vasak-desktop`, `Vasak Desktop`), each delivered to the instance of the
display it is on, puts the k-th window (k <= N) in the background slot of the k-th
display in enumeration order and on that display, with `is_positioned` set; the
displays being distinct, so are the slots. The (N + 1)-th window is left
unclassified: the handler returns the state and the payload as they were, so no
slot, geometry, layer or role changes and `is_positioned` is not set. -/
theorem background_first_fit (s : State) (evs : List (Output × view_mapped_signal))
    (last : Output × view_mapped_signal)
    (hnd : s.outputs.Nodup)
    (hempty : ∀ o ∈ s.outputs, (s.backgrounds o).view = none)
    (hlen : evs.length = s.outputs.length)
    (hsig : ∀ e ∈ evs ++ [last], (s.views e.2.view).app_id = "vasak-desktop" ∧
      (s.views e.2.view).title = "Vasak Desktop" ∧ (s.views e.2.view).output = some e.1)
    (hviews : ((evs ++ [last]).map (fun e => e.2.view)).Nodup) :
    (mapAll evs s).1.outputs = s.outputs ∧
    s.outputs.map (fun o => ((mapAll evs s).1.backgrounds o).view)
      = evs.map (fun e => some e.2.view) ∧
    (mapAll evs s).2 = evs.map (fun e => { e.2 with is_positioned := true }) ∧
    evs.map (fun e => ((mapAll evs s).1.views e.2.view).output) = s.outputs.map some ∧
    onViewMappedSignal last.1 last.2 (mapAll evs s).1 = ((mapAll evs s).1, last.2) := by
  have hv : (evs.map (fun e => e.2.view)).Nodup ∧ last.2.view ∉ evs.map (fun e => e.2.view) := by
    rw [List.map_append, List.nodup_append] at hviews
    refine ⟨hviews.1, ?_⟩
    intro hin
    exact hviews.2.2 hin (by simp)
  obtain ⟨r1, r2, r3, r4, r5, r6⟩ := mapAll_background evs s [] s.outputs (by simp)
    (by simp) hempty (by simpa using hnd) hlen
    (fun e he => hsig e (List.mem_append_left _ he)) hv.1
  refine ⟨r1, r2, r4, r5, ?_⟩
  have hlast := hsig last (List.mem_append_right _ (List.mem_singleton_self _))
  rw [← r6 last.2.view hv.2] at hlast
  rw [onViewMappedSignal_background_eq last.1 last.2 _ hlast.2.2 hlast.1 hlast.2.1]
  have hnone : (mapAll evs s).1.outputs.find?
      (fun op => ((mapAll evs s).1.backgrounds op).view.isNone) = none := by
    rw [List.find?_eq_none, r1]
    intro d hd
    have hmem : ((mapAll evs s).1.backgrounds d).view
        ∈ s.outputs.map (fun o => ((mapAll evs s).1.backgrounds o).view) :=
      List.mem_map_of_mem (fun o => ((mapAll evs s).1.backgrounds o).view) hd
    rw [r2] at hmem
    obtain ⟨e, _, he⟩ := List.mem_map.mp hmem
    simp [← he]
  rw [hnone]

/-- C7 at a concrete state: two displays, three background windows. Windows 10 and
11 fill the slots of displays 0 and 1 in that order; window 12 is left alone. -/
theorem background_first_fit_witness :
    ((mapAll [(0, { view := 10, is_positioned := false }),
        (0, { view := 11, is_positioned := false })] (shellState [0, 1])).1.backgrounds 0).view
      = some 10 ∧
    ((mapAll [(0, { view := 10, is_positioned := false }),
        (0, { view := 11, is_positioned := false })] (shellState [0, 1])).1.backgrounds 1).view
      = some 11 ∧
    (mapAll [(0, { view := 10, is_positioned := false }),
        (0, { view := 11, is_positioned := false })] (shellState [0, 1])).2
      = [{ view := 10, is_positioned := true }, { view := 11, is_positioned := true }] ∧
    onViewMappedSignal 0 { view := 12, is_positioned := false }
        (mapAll [(0, { view := 10, is_positioned := false }),
          (0, { view := 11, is_positioned := false })] (shellState [0, 1])).1
      = ((mapAll [(0, { view := 10, is_positioned := false }),
          (0, { view := 11, is_positioned := false })] (shellState [0, 1])).1,
         { view := 12, is_positioned := false }) := by
  have h := background_first_fit (shellState [0, 1])
    [(0, { view := 10, is_positioned := false }), (0, { view := 11, is_positioned := false })]
    (0, { view := 12, is_positioned := false })
    (by decide) (by decide) (by decide) (by decide) (by decide)
  exact ⟨by decide, by decide, h.2.2.1, h.2.2.2.2⟩


/-! ### C13: centring of notifications -/

/-- Truncating division by two, by the sign of the dividend. -/
theorem tdiv_two_cases (d : Int) :
    (0 ≤ d ∧ Int.tdiv d 2 = d / 2) ∨ (d < 0 ∧ Int.tdiv d 2 = -((-d) / 2)) := by
  by_cases h : 0 ≤ d
  · exact Or.inl ⟨h, Int.tdiv_eq_ediv h (by decide)⟩
  · refine Or.inr ⟨by omega, ?_⟩
    have h1 : Int.tdiv (-d) 2 = (-d) / 2 := Int.tdiv_eq_ediv (by omega) (by decide)
    have h2 : Int.tdiv (-(-d)) 2 = -(Int.tdiv (-d) 2) := Int.neg_tdiv (-d) 2
    rw [neg_neg] at h2
    rw [h2, h1]

/-- A margin of half the free space, rounded toward zero, against the margin that
remains: they add up to the free space, differ by at most one, and are equal exactly
when the free space is even. -/
theorem tdiv_two_margins (d : Int) :
    (d - Int.tdiv d 2) - Int.tdiv d 2 ≤ 1 ∧ -1 ≤ (d - Int.tdiv d 2) - Int.tdiv d 2 ∧
    (Int.tdiv d 2 = d - Int.tdiv d 2 ↔ d % 2 = 0) := by
  rcases tdiv_two_cases d with ⟨h, e⟩ | ⟨h, e⟩ <;> rw [e] <;> omega

/-- C13, counterexample. A popup of 301 by 81 units on a usable area of 400 by 200:
with `top-center` it is put at x = 49, so the left margin is 49 and the right margin
is 50; with `center-left` it is put at y = 59, so the margin above is 59 and the
margin below is 60. -/
theorem showNotification_centring_counterexample :
    ((showNotification 0 60 0 (oddState "top-center")).views 60).geometry.x = 49 ∧
    ((showNotification 0 60 0 (oddState "top-center")).views 60).geometry.x
        - ((oddState "top-center").workarea 0).x
      ≠ (((oddState "top-center").workarea 0).x + ((oddState "top-center").workarea 0).width)
        - (((showNotification 0 60 0 (oddState "top-center")).views 60).geometry.x
          + ((showNotification 0 60 0 (oddState "top-center")).views 60).geometry.width) ∧
    ((showNotification 0 60 0 (oddState "center-left")).views 60).geometry.y = 59 ∧
    ((showNotification 0 60 0 (oddState "center-left")).views 60).geometry.y
        - ((oddState "center-left").workarea 0).y
      ≠ (((oddState "center-left").workarea 0).y + ((oddState "center-left").workarea 0).height)
        - (((showNotification 0 60 0 (oddState "center-left")).views 60).geometry.y
          + ((showNotification 0 60 0 (oddState "center-left")).views 60).geometry.height) := by
  decide


/-- C13, amended. Centring of notifications to within one unit: in every state, for
every usable area and window size, with placement `top-center` or `bottom-center`
the left margin `x - workarea.x` is `(workarea.width - width) / 2` rounded toward
zero, so it differs from the right margin `(workarea.x + workarea.width) - (x + width)`
by at most 1, and the two are equal exactly when `workarea.width - width` is even;
with `center-left` or `center-right` the same holds vertically for `y`,
`workarea.height` and `height`. -/
theorem showNotification_centring (inst : Output) (view : View) (output : Output) (s : State) :
    (s.placement inst ∈ [some "top-center", some "bottom-center"] →
      ((showNotification inst view output s).views view).geometry.x - (s.workarea output).x
        = Int.tdiv ((s.workarea output).width - (s.views view).geometry.width) 2 ∧
      (((s.workarea output).x + (s.workarea output).width)
          - (((showNotification inst view output s).views view).geometry.x
            + ((showNotification inst view output s).views view).geometry.width))
        - (((showNotification inst view output s).views view).geometry.x - (s.workarea output).x)
        ≤ 1 ∧
      -1 ≤ (((s.workarea output).x + (s.workarea output).width)
          - (((showNotification inst view output s).views view).geometry.x
            + ((showNotification inst view output s).views view).geometry.width))
        - (((showNotification inst view output s).views view).geometry.x - (s.workarea output).x) ∧
      (((showNotification inst view output s).views view).geometry.x - (s.workarea output).x
          = ((s.workarea output).x + (s.workarea output).width)
            - (((showNotification inst view output s).views view).geometry.x
              + ((showNotification inst view output s).views view).geometry.width)
        ↔ ((s.workarea output).width - (s.views view).geometry.width) % 2 = 0)) ∧
    (s.placement inst ∈ [some "center-left", some "center-right"] →
      ((showNotification inst view output s).views view).geometry.y - (s.workarea output).y
        = Int.tdiv ((s.workarea output).height - (s.views view).geometry.height) 2 ∧
      (((s.workarea output).y + (s.workarea output).height)
          - (((showNotification inst view output s).views view).geometry.y
            + ((showNotification inst view output s).views view).geometry.height))
        - (((showNotification inst view output s).views view).geometry.y - (s.workarea output).y)
        ≤ 1 ∧
      -1 ≤ (((s.workarea output).y + (s.workarea output).height)
          - (((showNotification inst view output s).views view).geometry.y
            + ((showNotification inst view output s).views view).geometry.height))
        - (((showNotification inst view output s).views view).geometry.y - (s.workarea output).y) ∧
      (((showNotification inst view output s).views view).geometry.y - (s.workarea output).y
          = ((s.workarea output).y + (s.workarea output).height)
            - (((showNotification inst view output s).views view).geometry.y
              + ((showNotification inst view output s).views view).geometry.height)
        ↔ ((s.workarea output).height - (s.views view).geometry.height) % 2 = 0)) := by
  simp only [showNotification_geometry]
  have hw := tdiv_two_margins ((s.workarea output).width - (s.views view).geometry.width)
  have hh := tdiv_two_margins ((s.workarea output).height - (s.views view).geometry.height)
  refine ⟨?_, ?_⟩
  · intro h
    simp only [List.mem_cons, List.mem_singleton, List.not_mem_nil, or_false] at h
    rcases h with h | h <;> simp only [h, Option.getD_some, notificationGeometry] <;>
      simp <;> omega
  · intro h
    simp only [List.mem_cons, List.mem_singleton, List.not_mem_nil, or_false] at h
    rcases h with h | h <;> simp only [h, Option.getD_some, notificationGeometry] <;>
      simp <;> omega

/-- C13 amended, at a concrete state: a popup of 301 by 81 units on a usable area of
400 by 200 with `bottom-center` has a left margin of 49 and a right margin of 50. -/
theorem showNotification_centring_witness :
    ((showNotification 0 60 0 (oddState "bottom-center")).views 60).geometry.x
        - ((oddState "bottom-center").workarea 0).x = 49 ∧
    ((((oddState "bottom-center").workarea 0).x + ((oddState "bottom-center").workarea 0).width)
          - (((showNotification 0 60 0 (oddState "bottom-center")).views 60).geometry.x
            + ((showNotification 0 60 0 (oddState "bottom-center")).views 60).geometry.width))
        - (((showNotification 0 60 0 (oddState "bottom-center")).views 60).geometry.x
            - ((oddState "bottom-center").workarea 0).x)
        ≤ 1 :=
  ⟨by decide,
   ((showNotification_centring 0 60 0 (oddState "bottom-center")).1 (by decide)).2.1⟩


/-! ### C11: the edge of a panel -/

/-- The map event of panel 50 is `configureView` at `beforeFirstPlacement` followed
by the reflow of the reserved areas of the display. -/
theorem afterMap50_eq :
    afterMap50 = reflow_reserved_areas 0 (configureView 50 0 beforeFirstPlacement) := by
  have h := onViewMappedSignal_panel_eq 0 { view := 50, is_positioned := false }
    (oddState "top-right") (by decide) (by decide) (by decide)
  have hfind : (oddState "top-right").outputs.find? (fun op => !panelsFull (oddState "top-right") op)
      = some 0 := by decide
  rw [hfind] at h
  show (onViewMappedSignal 0 { view := 50, is_positioned := false } (oddState "top-right")).1 = _
  rw [h]
  rfl

/-- C11, counterexample. Panel 50 is 600 by 450 units on a display of 400 by 200.
When first placed it is wider than tall: `configureView` registers it in the top
slot, creates the top reserved area with a closure that captured it, and clamps its
width to 400, which leaves it 400 by 450. The next recomputation by that closure
(`configureView` on the same window and display) finds it taller than wide,
registers it in the left slot and creates a left reserved area. The reflow inside
the very map event does this: after the event the window is in both slots. -/
theorem panel_edge_counterexample :
    (beforeFirstPlacement.views 50).geometry.width
      > (beforeFirstPlacement.views 50).geometry.height ∧
    ((configureView 50 0 beforeFirstPlacement).panels 0).viewTop = some 50 ∧
    ((configureView 50 0 beforeFirstPlacement).panels 0).viewLeft = none ∧
    ((configureView 50 0 beforeFirstPlacement).panels 0).anchorLeft = none ∧
    (configureView 50 0 beforeFirstPlacement).reserved_areas 0 = [.top] ∧
    (((configureView 50 0 beforeFirstPlacement).panels 0).anchorTop.bind (fun a => a.reflowed))
      = some (50, 0) ∧
    ((configureView 50 0 (configureView 50 0 beforeFirstPlacement)).panels 0).viewLeft
      = some 50 ∧
    ((configureView 50 0 (configureView 50 0 beforeFirstPlacement)).panels 0).anchorLeft.isSome
      = true ∧
    (configureView 50 0 (configureView 50 0 beforeFirstPlacement)).reserved_areas 0
      = [.top, .left] ∧
    (afterMap50.panels 0).viewTop = some 50 ∧
    (afterMap50.panels 0).viewLeft = some 50 ∧
    afterMap50.reserved_areas 0 = [.top, .left] := by
  decide

/-- C11, amended. The edge of a panel is derived anew from its size at every
recomputation: in every state, `configureView` (which is what the closure of a
reserved area runs, and what a panel-config reload runs through `setViewAsPanel`)
on a window that is wider than tall at that moment puts it in the top slot at
`y = workarea.y`, with a top reserved area, and leaves the left slot, the left
reserved area and its registration as they were; on a window that is not wider than
tall at that moment it puts it in the left slot at `x = workarea.x`, with a left
reserved area, and leaves the top slot, the top reserved area and its registration
as they were. So a panel stays on its edge, and off the other, for as long as every
recomputation finds it with the orientation it had when first placed. -/
theorem configureView_edge (view : View) (output : Output) (s : State) :
    if (s.views view).geometry.width > (s.views view).geometry.height then
      ((configureView view output s).panels output).viewTop = some view ∧
      ((configureView view output s).views view).geometry.y = (s.workarea output).y ∧
      ((configureView view output s).panels output).anchorTop.isSome = true ∧
      ((configureView view output s).panels output).viewLeft = (s.panels output).viewLeft ∧
      ((configureView view output s).panels output).anchorLeft = (s.panels output).anchorLeft ∧
      (AnchorSlot.left ∈ (configureView view output s).reserved_areas output
        ↔ AnchorSlot.left ∈ s.reserved_areas output)
    else
      ((configureView view output s).panels output).viewLeft = some view ∧
      ((configureView view output s).views view).geometry.x = (s.workarea output).x ∧
      ((configureView view output s).panels output).anchorLeft.isSome = true ∧
      ((configureView view output s).panels output).viewTop = (s.panels output).viewTop ∧
      ((configureView view output s).panels output).anchorTop = (s.panels output).anchorTop ∧
      (AnchorSlot.top ∈ (configureView view output s).reserved_areas output
        ↔ AnchorSlot.top ∈ s.reserved_areas output) := by
  by_cases h : (s.views view).geometry.width > (s.views view).geometry.height
  · rw [if_pos h]
    obtain ⟨hp, hr⟩ := configureView_top view output s h
    rw [hp, hr, configureView_geometry]
    refine ⟨rfl, ?_, rfl, rfl, rfl, ?_⟩
    · simp only [panelGeometry, if_pos h]
    · split <;> simp
  · rw [if_neg h]
    obtain ⟨hp, hr⟩ := configureView_left view output s h
    rw [hp, hr, configureView_geometry]
    refine ⟨rfl, ?_, rfl, rfl, rfl, ?_⟩
    · simp only [panelGeometry, if_neg h]
    · split <;> simp

/-! ### C12: handles after the vanish event -/

theorem configureView_members (view : View) (output : Output) (s : State) :
    (configureView view output s).backgrounds = s.backgrounds ∧
    (configureView view output s).mLastFocusView = s.mLastFocusView ∧
    (configureView view output s).mRunnerView = s.mRunnerView ∧
    (configureView view output s).mNotifyView = s.mNotifyView := by
  by_cases h : (s.views view).geometry.width > (s.views view).geometry.height <;>
    by_cases hT : (s.panels output).anchorTop = none <;>
    by_cases hL : (s.panels output).anchorLeft = none <;>
    simp [configureView, h, hT, hL, set_geometry, State.modifyView, State.modifyPanel,
      add_reserved_area]

theorem reflowOne_members (output : Output) (s : State) (a : AnchorSlot) :
    (reflowOne output s a).backgrounds = s.backgrounds ∧
    (reflowOne output s a).mLastFocusView = s.mLastFocusView ∧
    (reflowOne output s a).mRunnerView = s.mRunnerView ∧
    (reflowOne output s a).mNotifyView = s.mNotifyView := by
  unfold reflowOne
  have h1 : ∀ t : State, t = (match ((s.panels output).anchor a).bind (fun area => area.reflowed) with
      | some (view, o) => configureView view o s
      | none => s) →
      t.backgrounds = s.backgrounds ∧ t.mLastFocusView = s.mLastFocusView ∧
      t.mRunnerView = s.mRunnerView ∧ t.mNotifyView = s.mNotifyView := by
    intro t ht
    rw [ht]
    split
    · exact configureView_members _ _ s
    · exact ⟨rfl, rfl, rfl, rfl⟩
  have h2 := h1 _ rfl
  dsimp only
  split
  · exact h2
  · exact h2

theorem reflow_reserved_areas_members (output : Output) (s : State) :
    (reflow_reserved_areas output s).backgrounds = s.backgrounds ∧
    (reflow_reserved_areas output s).mLastFocusView = s.mLastFocusView ∧
    (reflow_reserved_areas output s).mRunnerView = s.mRunnerView ∧
    (reflow_reserved_areas output s).mNotifyView = s.mNotifyView := by
  unfold reflow_reserved_areas
  have hfold : ∀ (l : List AnchorSlot) (t : State),
      (l.foldl (reflowOne output) t).backgrounds = t.backgrounds ∧
      (l.foldl (reflowOne output) t).mLastFocusView = t.mLastFocusView ∧
      (l.foldl (reflowOne output) t).mRunnerView = t.mRunnerView ∧
      (l.foldl (reflowOne output) t).mNotifyView = t.mNotifyView := by
    intro l
    induction l with
    | nil => intro t; exact ⟨rfl, rfl, rfl, rfl⟩
    | cons a l ih =>
      intro t
      have h1 := reflowOne_members output t a
      have h2 := ih (reflowOne output t a)
      exact ⟨h2.1.trans h1.1, h2.2.1.trans h1.2.1, h2.2.2.1.trans h1.2.2.1,
        h2.2.2.2.trans h1.2.2.2⟩
  exact hfold _ _

theorem vanishedTop_members (inst : Output) (ev : view_disappeared_signal) (s : State) :
    (vanishedTop inst ev s).backgrounds = s.backgrounds ∧
    (vanishedTop inst ev s).mLastFocusView = s.mLastFocusView ∧
    (vanishedTop inst ev s).mRunnerView = s.mRunnerView ∧
    (vanishedTop inst ev s).mNotifyView = s.mNotifyView := by
  unfold vanishedTop
  split
  · dsimp only
    split
    · exact reflow_reserved_areas_members inst _
    · exact ⟨rfl, rfl, rfl, rfl⟩
  · exact ⟨rfl, rfl, rfl, rfl⟩

theorem vanishedLeft_members (inst : Output) (ev : view_disappeared_signal) (s : State) :
    (vanishedLeft inst ev s).backgrounds = s.backgrounds ∧
    (vanishedLeft inst ev s).mLastFocusView = s.mLastFocusView ∧
    (vanishedLeft inst ev s).mRunnerView = s.mRunnerView ∧
    (vanishedLeft inst ev s).mNotifyView = s.mNotifyView := by
  unfold vanishedLeft
  split
  · dsimp only
    split
    · exact reflow_reserved_areas_members inst _
    · exact ⟨rfl, rfl, rfl, rfl⟩
  · exact ⟨rfl, rfl, rfl, rfl⟩

/-- What the vanish handler does achieve, in every state: after the vanish event of
window `w` at the instance of display `inst`, neither the background slot of that
display nor the last-focused, runner or notification member of that instance refers
to `w`. -/
theorem onViewVanishedSignal_clears_members (inst : Output) (w : View) (s : State) :
    ((onViewVanishedSignal inst { view := some w } s).backgrounds inst).view ≠ some w ∧
    (onViewVanishedSignal inst { view := some w } s).mLastFocusView inst ≠ some w ∧
    (onViewVanishedSignal inst { view := some w } s).mRunnerView inst ≠ some w ∧
    (onViewVanishedSignal inst { view := some w } s).mNotifyView inst ≠ some w := by
  unfold onViewVanishedSignal
  have hL := vanishedLeft_members inst { view := some w }
    (vanishedTop inst { view := some w } (vanishedBackground inst { view := some w } s))
  have hT := vanishedTop_members inst { view := some w }
    (vanishedBackground inst { view := some w } s)
  have hB : (((vanishedBackground inst { view := some w } s).backgrounds inst).view ≠ some w) ∧
      (vanishedBackground inst { view := some w } s).mLastFocusView = s.mLastFocusView ∧
      (vanishedBackground inst { view := some w } s).mRunnerView = s.mRunnerView ∧
      (vanishedBackground inst { view := some w } s).mNotifyView = s.mNotifyView := by
    unfold vanishedBackground
    split
    · simp
    · rename_i hc
      refine ⟨?_, rfl, rfl, rfl⟩
      intro h
      exact hc ⟨rfl, h⟩
  generalize vanishedLeft inst { view := some w }
    (vanishedTop inst { view := some w } (vanishedBackground inst { view := some w } s)) = t
    at hL ⊢
  have hbg : (t.backgrounds inst).view ≠ some w := by
    rw [hL.1, hT.1]; exact hB.1
  unfold vanishedMembers
  dsimp only
  refine ⟨?_, ?_, ?_, ?_⟩
  · split <;> split <;> split <;> exact hbg
  · split <;> split <;> split <;> first
      | (simp; done)
      | (rename_i h1 _ _; intro h; exact h1 h.symm)
  · split <;> split <;> split <;> first
      | (simp; done)
      | (rename_i _ h2 _; intro h; exact h2 h.symm)
  · split <;> split <;> split <;> first
      | (simp; done)
      | (rename_i _ _ h3; intro h; exact h3 h.symm)

/-- C12, the code at the failing input. From the empty state with one display of 400
by 200 units, panel 50 (600 by 450) is mapped and then vanishes. The map event
leaves it in the top and in the left slot, each with a reserved area whose closure
captured it. The vanish handler clears the top slot and removes the top area, and
the reflow it then requests runs the closure of the left area, which finds the
window (by then 400 by 200) wider than tall and registers it in the top slot again
with a new top area. After the handler the top slot of the display still holds
window 50, and the top reserved area is registered with a closure that captured
window 50. -/
theorem vanish_leaves_handle :
    (afterMap50.panels 0).viewTop = some 50 ∧
    (afterMap50.panels 0).viewLeft = some 50 ∧
    ((afterMap50.panels 0).anchorLeft.bind (fun a => a.reflowed)) = some (50, 0) ∧
    (afterVanish50.panels 0).viewTop = some 50 ∧
    (afterVanish50.panels 0).viewLeft = none ∧
    afterVanish50.reserved_areas 0 = [.top] ∧
    ((afterVanish50.panels 0).anchorTop.bind (fun a => a.reflowed)) = some (50, 0) := by
  decide

end VSKShell
